import Mathlib

/-!
Verification of the LyricArsenal master-build scripts
(`setup_scripts/build_master_from_imports.py`, `setup_scripts/diff_album.py`,
`setup_scripts/sync_lyrics_from_imports.py`) against their specification.

The scripts are declarative file-layout transformations.  We shallowly embed
them over an explicit filesystem value:

* a path is a list of components (`FPath`);
* the filesystem (`FS`) is a list of directory paths plus an association list
  from file paths to their textual content; writing a file prepends the new
  binding, so `lookupFile` (first match) is the current content;
* fallible operations (`mkdir`, `read_text`, `shutil.copy2`) live in
  `Except String`, mirroring the fact that the Python scripts let filesystem
  errors propagate and abort the run.

Python `str.lower` is modelled by `Char.toLower` (ASCII case mapping; all
data handled by the repository is ASCII), and `re`'s `\d` by `Char.isDigit`.
JSON serialisation (`json.dumps(..., indent=2)`) is abstracted by explicit
rendering functions: no claim inspects the metadata text.
-/

deriving instance DecidableEq for Except

abbrev FPath := List String

/-- Model filesystem state: a set of directories plus file contents.
A write prepends, so the first binding found by `lookupFile` is current. -/
structure FS where
  dirs : List FPath
  files : List (FPath × String)
deriving DecidableEq, Repr

/-- First-match association-list lookup (the current content of a file). -/
def lookupFile : List (FPath × String) → FPath → Option String
  | [], _ => none
  | (q, c) :: l, p => if q = p then some c else lookupFile l p

/-- Content of the file at `p`, if `p` is a file. -/
def FS.read (fs : FS) (p : FPath) : Option String :=
  lookupFile fs.files p

/-- Boolean membership of a path in a list of paths. -/
def pmem (p : FPath) : List FPath → Bool
  | [] => false
  | q :: l => if q = p then true else pmem p l

/-- `FPath.is_dir()`. -/
def FS.isDir (fs : FS) (p : FPath) : Bool :=
  pmem p fs.dirs

/-- `FPath.exists()`: true for both directories and files. -/
def FS.pexists (fs : FS) (p : FPath) : Bool :=
  fs.isDir p || (fs.read p).isSome

/-- Write (or overwrite) the file at `p` with content `c`. -/
def FS.setFile (fs : FS) (p : FPath) (c : String) : FS :=
  { fs with files := (p, c) :: fs.files }

/-- Render a path the way Python prints it (components joined by `/`). -/
def joinPath (p : FPath) : String :=
  String.intercalate "/" p

/-- One `mkdir` step of `FPath.mkdir(parents=True, exist_ok=True)`: creating a
directory at a path occupied by a file raises; an existing directory is kept. -/
def mkdir1 (fs : FS) (q : FPath) : Except String FS :=
  if (fs.read q).isSome then .error ("mkdir: file exists at " ++ joinPath q)
  else if fs.isDir q then .ok fs
  else .ok { fs with dirs := q :: fs.dirs }

/-- The nonempty prefixes of a path, shortest first. -/
def prefixesOf (p : FPath) : List FPath :=
  (List.range p.length).map (fun i => p.take (i + 1))

/-- Create every directory in the given list in order. -/
def mkdirList (fs : FS) : List FPath → Except String FS
  | [] => .ok fs
  | q :: rest =>
    match mkdir1 fs q with
    | .error e => .error e
    | .ok fs' => mkdirList fs' rest

/-- `FPath.mkdir(parents=True, exist_ok=True)`: create the directory and all
missing ancestors. -/
def mkdirp (fs : FS) (p : FPath) : Except String FS :=
  mkdirList fs (prefixesOf p)

/-- `FPath.read_text()`: reading a missing file aborts the run. -/
def readReq (fs : FS) (p : FPath) : Except String String :=
  match fs.read p with
  | some c => .ok c
  | none => .error ("read_text: no such file: " ++ joinPath p)

/-- Is `pat` a prefix of `l` (Boolean)? -/
def charsPre : List Char → List Char → Bool
  | [], _ => true
  | _ :: _, [] => false
  | a :: as, b :: bs => a = b && charsPre as bs

/-- Does `pat` occur as a contiguous run in `l` (Boolean)? -/
def charsInfix (pat : List Char) : List Char → Bool
  | [] => charsPre pat []
  | b :: bs => charsPre pat (b :: bs) || charsInfix pat bs

/-- Python `sub in s` substring test. -/
def strContains (s sub : String) : Bool :=
  charsInfix sub.data s.data

/-- Lexicographic (code-point) comparison of character lists, the order in
which Python compares `str` values. -/
def charsLe : List Char → List Char → Bool
  | [], _ => true
  | _ :: _, [] => false
  | a :: as, b :: bs => if a < b then true else if a = b then charsLe as bs else false

def charsLe_total : ∀ as bs, charsLe as bs = true ∨ charsLe bs as = true := by
  intro as
  induction as with
  | nil => intro bs; exact Or.inl rfl
  | cons a as ih =>
    intro bs
    cases bs with
    | nil => exact Or.inr rfl
    | cons b bs =>
      rcases lt_trichotomy a b with h | h | h
      · left
        simp [charsLe, h]
      · subst h
        rcases ih bs with h1 | h1
        · left
          simp [charsLe, h1]
        · right
          simp [charsLe, h1]
      · right
        simp [charsLe, h]

def charsLe_trans :
    ∀ as bs cs, charsLe as bs = true → charsLe bs cs = true → charsLe as cs = true := by
  intro as
  induction as with
  | nil => intro bs cs _ _; rfl
  | cons a as ih =>
    intro bs cs h1 h2
    cases bs with
    | nil => exact absurd h1 (by simp [charsLe])
    | cons b bs =>
      cases cs with
      | nil => exact absurd h2 (by simp [charsLe])
      | cons c cs =>
        by_cases hab : a < b
        · by_cases hbc : b < c
          · simp [charsLe, lt_trans hab hbc]
          · by_cases hbc2 : b = c
            · subst hbc2
              simp [charsLe, hab]
            · exact absurd h2 (by simp [charsLe, hbc, hbc2])
        · by_cases hab2 : a = b
          · subst hab2
            by_cases hac : a < c
            · simp [charsLe, hac]
            · by_cases hac2 : a = c
              · subst hac2
                simp only [charsLe, lt_self_iff_false, if_false, if_pos rfl] at h1 h2 ⊢
                exact ih bs cs h1 h2
              · exact absurd h2 (by simp [charsLe, hac, hac2])
          · exact absurd h1 (by simp [charsLe, hab, hab2])

/-- `a` precedes-or-equals `b` in Python's string order. -/
def strLe (a b : String) : Prop :=
  charsLe a.data b.data = true

instance (a b : String) : Decidable (strLe a b) := by
  unfold strLe; infer_instance

instance : IsTotal String strLe :=
  ⟨fun a b => charsLe_total a.data b.data⟩

instance : IsTrans String strLe :=
  ⟨fun a b c h1 h2 => charsLe_trans a.data b.data c.data h1 h2⟩

/-- Python `sorted` on a list of strings. -/
def sortStrings (l : List String) : List String :=
  l.insertionSort strLe

/-- Python `sorted` on paths: `PurePath` comparison on POSIX orders by the
slash-joined path string. -/
def pathLe (a b : FPath) : Prop :=
  strLe (joinPath a) (joinPath b)

instance (a b : FPath) : Decidable (pathLe a b) := by
  unfold pathLe; infer_instance

/-- Python `sorted` on a list of paths. -/
def sortPaths (l : List FPath) : List FPath :=
  l.insertionSort pathLe

-- ## `build_master_from_imports.py`

/-- `canonicalize_slug`: `raw_slug.lower().replace("_", "-")`. -/
def canonicalize_slug (raw_slug : String) : String :=
  ⟨(raw_slug.data.map Char.toLower).map (fun c => if c = '_' then '-' else c)⟩

/-- `TRACK_FILE_RE.match(name)` for the regex
`^(\d{2})[_-](.+)\.md$` with `re.IGNORECASE`:
two digits, `_` or `-`, a nonempty newline-free slug, and a trailing `.md`
(case-insensitive); `$` also accepts a single trailing newline.
Returns `(group 1, group 2) = (track number, raw slug)`. -/
def trackFileMatch (name : String) : Option (String × String) :=
  let cs0 := name.data
  let cs := if cs0.getLast? = some '\n' then cs0.dropLast else cs0
  match cs with
  | c1 :: c2 :: c3 :: rest =>
    if c1.isDigit && c2.isDigit && (c3 = '_' || c3 = '-') then
      let n := rest.length
      if 4 ≤ n then
        let slug := rest.take (n - 3)
        let tail := rest.drop (n - 3)
        if (match tail with
            | [d, m, e] =>
              d = '.' && (m = 'm' || m = 'M') && (e = 'd' || e = 'D')
            | _ => false)
            && !(slug.contains '\n') then
          some (⟨[c1, c2]⟩, ⟨slug⟩)
        else none
      else none
    else none
  | _ => none

/-- The Album Builder's per-filename decision (`build_workspaces_for_album`,
loop body): a file whose name contains `-checkpoint` is skipped, otherwise it
is processed exactly when `TRACK_FILE_RE` matches. -/
def importFileAction (name : String) : Option (String × String) :=
  if strContains name "-checkpoint" then none
  else trackFileMatch name

/-- Does `s` start with `pat` (Python `str.startswith` / glob literal prefix)? -/
def strStartsWith (s pat : String) : Bool :=
  charsPre pat.data s.data

/-- Does `s` end with `pat` (Python `str.endswith` / glob literal suffix)? -/
def strEndsWith (s pat : String) : Bool :=
  charsPre pat.data.reverse s.data.reverse

/-- `pathlib.PurePath.stem`: the final component without its last suffix; a
dot at position 0 or at the very end does not begin a suffix. -/
def pathStem (name : String) : String :=
  let cs := name.data
  match cs.reverse.findIdx? (fun c => c == '.') with
  | none => name
  | some r =>
    let i := cs.length - 1 - r
    if 0 < i ∧ i < cs.length - 1 then ⟨cs.take i⟩ else name

/-- `pathlib.PurePath.with_suffix`: replace the last suffix (or append when
there is none). -/
def withSuffix (name suf : String) : String :=
  pathStem name ++ suf

/-- Names of the files lying directly in directory `p`, sorted and
deduplicated (model of a non-recursive `glob` over regular files). -/
def childFileNames (fs : FS) (p : FPath) : List String :=
  sortStrings ((fs.files.filterMap (fun kv =>
    match kv.1.getLast? with
    | some n => if kv.1.dropLast = p then some n else none
    | none => none)).dedup)

/-- Names of all entries (directories and files) directly in `p`, sorted:
the model of `sorted(p.iterdir())` restricted to the entry names. -/
def childNamesAll (fs : FS) (p : FPath) : List String :=
  sortStrings (((fs.dirs ++ fs.files.map Prod.fst).filterMap (fun q =>
    match q.getLast? with
    | some n => if q.dropLast = p then some n else none
    | none => none)).dedup)

/-- All entries (directories and files) strictly below `root`, sorted:
the model of `sorted(root.rglob("*"))`.  The flat `FS` is assumed
well-formed (each file's ancestors are directories), so prefix search is
equivalent to the recursive directory walk. -/
def descendantsUnder (fs : FS) (root : FPath) : List FPath :=
  sortPaths (((fs.dirs ++ fs.files.map Prod.fst).filter (fun q =>
    root.isPrefixOf q && q != root)).dedup)

/-- The model of `sorted(dir.rglob("*.md"))`: every file strictly below
`root` whose name ends in `.md`, sorted.  (A directory named `*.md` would
also be yielded by `rglob` and would then crash `read_text`; the intended
layouts contain none, and the model scans regular files.) -/
def rglobMdFiles (fs : FS) (root : FPath) : List FPath :=
  sortPaths (((fs.files.map Prod.fst).filter (fun q =>
    root.isPrefixOf q && q != root && strEndsWith (q.getLast?.getD "") ".md")).dedup)

/-- One album entry of `ALBUM_SPECS`. -/
structure AlbumSpec where
  sku : String
  album_code : String
  import_dir : FPath
  workspace_album : String
  pull_album : String
deriving DecidableEq, Repr

/-- The per-track record accumulated by `build_workspaces_for_album`. -/
structure TrackRec where
  track_number : String
  raw_slug : String
  canonical_slug : String
  workspace_dir : FPath
  lyrics_path : FPath
deriving DecidableEq, Repr

/-- Abstraction of `json.dumps(metadata, indent=2)` for the workspace
metadata record (fixed keys, 2-space indent, and the derived `title` field
are abstracted away; no claim inspects this text). -/
def dumpsTrackMeta (sku album track_num canonical_slug raw_slug : String) : String :=
  String.intercalate "\n" ["workspace-metadata", sku, album, track_num, canonical_slug, raw_slug]

/-- Abstraction of the extended pull-bucket metadata JSON text. -/
def dumpsPullMeta (sku album album_code track_num canonical_slug raw_slug source_import workspace_track_dir : String) : String :=
  String.intercalate "\n" ["pull-metadata", sku, album, album_code, track_num,
    canonical_slug, raw_slug, source_import, workspace_track_dir]

/-- `shutil.copy2(src, dst)` as used after a `src.exists()` guard: overwrite
`dst` with the content of `src`; copying a non-file raises. -/
def copyIfExists (fs : FS) (src dst : FPath) : Except String FS :=
  if fs.pexists src then
    match fs.read src with
    | some c => .ok (fs.setFile dst c)
    | none => .error ("copy2: not a file: " ++ joinPath src)
  else .ok fs

/-- Body of `apply_track_template` over the pre-computed, sorted entry list
(`sorted(template_root.rglob("*"))` is forced before the loop runs): a
directory entry is mirrored with `mkdir(parents=True, exist_ok=True)`; a file
entry is copied only when nothing exists at the target path. -/
def applyTemplateEntries (track_dir template_root : FPath) :
    List FPath → FS → Except String FS
  | [], fs => .ok fs
  | template_path :: rest, fs =>
    if fs.isDir template_path then
      match mkdirp fs (track_dir ++ template_path.drop template_root.length) with
      | .error e => .error e
      | .ok fs' => applyTemplateEntries track_dir template_root rest fs'
    else
      if fs.pexists (track_dir ++ template_path.drop template_root.length) then
        applyTemplateEntries track_dir template_root rest fs
      else
        match mkdirp fs (track_dir ++ template_path.drop template_root.length).dropLast with
        | .error e => .error e
        | .ok fs' =>
          match fs'.read template_path with
          | some c =>
            applyTemplateEntries track_dir template_root rest
              (fs'.setFile (track_dir ++ template_path.drop template_root.length) c)
          | none => .error ("copy2: no such file: " ++ joinPath template_path)

/-- `apply_track_template(track_dir, template_root)`. -/
def apply_track_template (fs : FS) (track_dir template_root : FPath) : Except String FS :=
  applyTemplateEntries track_dir template_root (descendantsUnder fs template_root) fs

/-- The `for md_path in sorted(import_dir.rglob("*.md"))` loop of
`build_workspaces_for_album`. -/
def buildTracksLoop (spec : AlbumSpec) (template_root workspace_album_dir : FPath) :
    List FPath → FS → Except String (List TrackRec × FS)
  | [], fs => .ok ([], fs)
  | md_path :: rest, fs =>
    let name := md_path.getLast?.getD ""
    if strContains name "-checkpoint" then
      buildTracksLoop spec template_root workspace_album_dir rest fs
    else
      match trackFileMatch name with
      | none => buildTracksLoop spec template_root workspace_album_dir rest fs
      | some (track_num, raw_slug) => do
        let canonical_slug := canonicalize_slug raw_slug
        let folder_name := track_num ++ "_" ++ canonical_slug
        let workspace_track_dir := workspace_album_dir ++ [folder_name]
        let fs ← mkdirp fs workspace_track_dir
        let fs ← apply_track_template fs workspace_track_dir template_root
        let lyrics_text ← readReq fs md_path
        let lyrics_dest := workspace_track_dir ++ ["data", "lyrics.md"]
        let fs ← mkdirp fs lyrics_dest.dropLast
        let fs := fs.setFile lyrics_dest lyrics_text
        let ipynb_source := md_path.dropLast ++ [withSuffix name ".ipynb"]
        let fs ← copyIfExists fs ipynb_source
          (workspace_track_dir ++ [track_num ++ "_" ++ canonical_slug ++ ".ipynb"])
        let fs := fs.setFile (workspace_track_dir ++ ["data", "metadata.json"])
          (dumpsTrackMeta spec.sku spec.workspace_album track_num canonical_slug raw_slug)
        let (tracks, fsF) ← buildTracksLoop spec template_root workspace_album_dir rest fs
        .ok (⟨track_num, raw_slug, canonical_slug, workspace_track_dir, lyrics_dest⟩ :: tracks, fsF)

/-- Result of `build_workspaces_for_album`: the track list, the filesystem
after the side effects, and the `[WARN]` lines printed. -/
structure BuildOut where
  tracks : List TrackRec
  fs : FS
  warns : List String
deriving DecidableEq, Repr

/-- `build_workspaces_for_album(spec, base_dir, template_root)`. -/
def build_workspaces_for_album (spec : AlbumSpec) (base template_root : FPath)
    (fs : FS) : Except String BuildOut :=
  match mkdirp fs (base ++ [spec.sku, "_workspace", spec.workspace_album]) with
  | .error e => .error e
  | .ok fs1 =>
    match mkdirp fs1 (base ++ [spec.sku, "_pull-bucket", spec.pull_album]) with
    | .error e => .error e
    | .ok fs2 =>
      if !(fs2.pexists (base ++ spec.import_dir)) then
        .ok ⟨[], fs2,
          ["[WARN] Import directory not found: " ++ joinPath (base ++ spec.import_dir)]⟩
      else
        match buildTracksLoop spec template_root
            (base ++ [spec.sku, "_workspace", spec.workspace_album])
            (rglobMdFiles fs2 (base ++ spec.import_dir)) fs2 with
        | .error e => .error e
        | .ok (tracks, fsF) => .ok ⟨tracks, fsF, []⟩

/-- `f"{track_number}_{canonical_slug}"`, the pull-bucket file root. -/
def fileRootOf (t : TrackRec) : String :=
  t.track_number ++ "_" ++ t.canonical_slug

/-- The per-track loop of `build_pull_bucket_for_album`: re-read the lyrics
from the recorded workspace path and write the flat `.md` and `.json` pair. -/
def pullLoop (spec : AlbumSpec) (base pull_album_dir : FPath) :
    List TrackRec → FS → Except String FS
  | [], fs => .ok fs
  | track :: rest, fs =>
    match readReq fs track.lyrics_path with
    | .error e => .error e
    | .ok lyrics_text =>
      pullLoop spec base pull_album_dir rest
        ((fs.setFile (pull_album_dir ++ [fileRootOf track ++ ".md"]) lyrics_text).setFile
          (pull_album_dir ++ [fileRootOf track ++ ".json"])
          (dumpsPullMeta spec.sku spec.workspace_album spec.album_code track.track_number
            track.canonical_slug track.raw_slug (joinPath (base ++ spec.import_dir))
            (joinPath track.workspace_dir)))

/-- `build_pull_bucket_for_album(spec, base_dir, tracks)`. -/
def build_pull_bucket_for_album (spec : AlbumSpec) (base : FPath)
    (tracks : List TrackRec) (fs : FS) : Except String FS :=
  match mkdirp fs (base ++ [spec.sku, "_pull-bucket", spec.pull_album]) with
  | .error e => .error e
  | .ok fs1 => pullLoop spec base (base ++ [spec.sku, "_pull-bucket", spec.pull_album]) tracks fs1

/-- `SUN_TZU_NOTEBOOK`, split into components. -/
def SUN_TZU_NOTEBOOK : FPath :=
  ["_imports", "HAWK-ARS-00", "04_reckoning", "Sun_Tzu.ipynb"]

/-- `SUN_TZU_DEST`, split into components. -/
def SUN_TZU_DEST : FPath :=
  ["HAWK-ARS-04", "_workspace", "01_Sun_Tzu_Secretz_To_War", "Sun_Tzu.ipynb"]

/-- `copy_sun_tzu_notebook(base_dir)`: note that the destination's parent is
created BEFORE the source-existence check; returns the new filesystem and the
log lines printed. -/
def copy_sun_tzu_notebook (base : FPath) (fs : FS) : Except String (FS × List String) :=
  match mkdirp fs (base ++ SUN_TZU_DEST).dropLast with
  | .error e => .error e
  | .ok fs1 =>
    if !(fs1.pexists (base ++ SUN_TZU_NOTEBOOK)) then
      .ok (fs1, ["[WARN] Sun Tzu notebook not found at " ++ joinPath (base ++ SUN_TZU_NOTEBOOK)])
    else
      match fs1.read (base ++ SUN_TZU_NOTEBOOK) with
      | some c =>
        .ok (fs1.setFile (base ++ SUN_TZU_DEST) c,
          ["[SPECIAL] Copied Sun_Tzu.ipynb to " ++ joinPath (base ++ SUN_TZU_DEST)])
      | none => .error ("copy2: not a file: " ++ joinPath (base ++ SUN_TZU_NOTEBOOK))

/-- The `for spec in ALBUM_SPECS` loop of `main()`: workspaces then
pull-bucket for each album in order (the final notebook copy is modelled
separately by `copy_sun_tzu_notebook`). -/
def processAlbums (base template_root : FPath) :
    List AlbumSpec → FS → Except String (List (List TrackRec) × FS)
  | [], fs => .ok ([], fs)
  | spec :: rest, fs =>
    match build_workspaces_for_album spec base template_root fs with
    | .error e => .error e
    | .ok out =>
      match build_pull_bucket_for_album spec base out.tracks out.fs with
      | .error e => .error e
      | .ok fs2 =>
        match processAlbums base template_root rest fs2 with
        | .error e => .error e
        | .ok (tss, fsF) => .ok (out.tracks :: tss, fsF)

-- ## `diff_album.py`

/-- Boolean membership of a string in a list (Python `in` on a set of track
names). -/
def smem (t : String) : List String → Bool
  | [] => false
  | s :: l => if s = t then true else smem t l

/-- `list_tracks(base)`: every subdirectory of `base` containing a
`data/lyrics.md` file, keyed by its name, in sorted order.  Returns the empty
dictionary when `base` does not exist. -/
def list_tracks (fs : FS) (base : FPath) : List (String × FPath) :=
  if fs.pexists base then
    (childNamesAll fs base).filterMap (fun name =>
      if fs.isDir (base ++ [name]) then
        if fs.pexists (base ++ [name, "data", "lyrics.md"]) then some (name, base ++ [name])
        else none
      else none)
  else []

/-- Python dict lookup `workspace_dict[t]` (keys are unique by
construction). -/
def lookupStr : List (String × FPath) → String → Option FPath
  | [], _ => none
  | (k, v) :: l, t => if k = t then some v else lookupStr l t

/-- `sorted(setA - setB)`: the set difference, deduplicated and sorted. -/
def sortedSetDiff (a b : List String) : List String :=
  sortStrings (a.dedup.filter (fun t => !(smem t b)))

/-- One report section of `diff`: a header line, one `   - {t}` line per
item, and a blank separator — emitted only when the item list is nonempty. -/
def sectionBlock (header : String) (items : List String) : List String :=
  if items.isEmpty then [] else header :: items.map (fun t => "   - " ++ t) ++ [""]

/-- The per-track completeness check of `diff` (lines 98–110): flags a track
present in both the import set and the workspace dict whose workspace folder
lacks `data/lyrics.md`, `data/metadata.json`, or `{t}.ipynb`. -/
def incompleteBlock (fs : FS) (t : String) (ws : FPath) : List String :=
  if !(fs.pexists (ws ++ ["data", "lyrics.md"])) ||
      !(fs.pexists (ws ++ ["data", "metadata.json"])) ||
      !(fs.pexists (ws ++ [t ++ ".ipynb"])) then
    ("⚠️ Incomplete WORKSPACE for " ++ t ++ ":") ::
      ((if !(fs.pexists (ws ++ ["data", "lyrics.md"])) then ["   - missing lyrics.md"] else []) ++
        (if !(fs.pexists (ws ++ ["data", "metadata.json"])) then ["   - missing metadata.json"]
          else []) ++
        (if !(fs.pexists (ws ++ [t ++ ".ipynb"])) then ["   - missing " ++ t ++ ".ipynb"]
          else []) ++
        [""])
  else []

/-- The line list built by `diff(import_set, workspace_dict, pullbucket_set)`:
four independent set-difference sections followed by the per-track
completeness check, or the single clean line when nothing was reported. -/
def diffReport (fs : FS) (import_set : List String) (workspace_dict : List (String × FPath))
    (pullbucket_set : List String) : List String :=
  let report :=
    sectionBlock "❌ Missing in WORKSPACE:"
      (sortedSetDiff import_set (workspace_dict.map Prod.fst)) ++
    sectionBlock "❌ Missing in PULL-BUCKET:" (sortedSetDiff import_set pullbucket_set) ++
    sectionBlock "⚠️ Extra tracks in WORKSPACE (not in imports):"
      (sortedSetDiff (workspace_dict.map Prod.fst) import_set) ++
    sectionBlock "⚠️ Extra tracks in PULL-BUCKET (not in imports):"
      (sortedSetDiff pullbucket_set import_set) ++
    (sortStrings import_set.dedup).flatMap (fun t =>
      match lookupStr workspace_dict t with
      | some ws => incompleteBlock fs t ws
      | none => [])
  if report.isEmpty then ["✅ No differences found — album is clean.\n"] else report

/-- `diff` returns `"\n".join(report)`. -/
def diff (fs : FS) (import_set : List String) (workspace_dict : List (String × FPath))
    (pullbucket_set : List String) : String :=
  String.intercalate "\n" (diffReport fs import_set workspace_dict pullbucket_set)

-- ## `sync_lyrics_from_imports.py`

/-- `track_folder_name.split("_", 1)[0]`: the characters before the first
underscore (the whole string when there is none). -/
def takeUntilUnderscore : List Char → List Char
  | [] => []
  | c :: cs => if c = '_' then [] else c :: takeUntilUnderscore cs

/-- The numeric prefix of a workspace track folder name. -/
def prefixBeforeUnderscore (s : String) : String :=
  ⟨takeUntilUnderscore s.data⟩

/-- `fnmatch` of the glob pattern `{lit}*.md` against a filename: the
literal prefix `lit`, then anything (including nothing) for `*`, then the
literal `.md`. -/
def globStarMd (lit : String) (f : String) : Bool :=
  strStartsWith f lit && strEndsWith ⟨f.data.drop lit.data.length⟩ ".md"

/-- The sorted candidate list of `choose_import_md`:
`sorted(import_dir.glob(f"{prefix}_*.md"))`, falling back to
`sorted(import_dir.glob(f"{prefix}*.md"))` when the first glob is empty
(`import_dir` is given by the names of the files it contains). -/
def candidatesFor (files : List String) (track_folder_name : String) : List String :=
  if (sortStrings (files.filter
      (globStarMd (prefixBeforeUnderscore track_folder_name ++ "_")))).isEmpty then
    sortStrings (files.filter (globStarMd (prefixBeforeUnderscore track_folder_name)))
  else
    sortStrings (files.filter
      (globStarMd (prefixBeforeUnderscore track_folder_name ++ "_")))

/-- `choose_import_md(import_dir, track_folder_name)`: `None` when no
candidate matches; otherwise the first candidate whose stem does not end in
`_web`, falling back to the first candidate overall. -/
def choose_import_md (files : List String) (track_folder_name : String) : Option String :=
  if (candidatesFor files track_folder_name).isEmpty then none
  else
    match (candidatesFor files track_folder_name).filter
        (fun c => !(strEndsWith (pathStem c) "_web")) with
    | c :: _ => some c
    | [] => (candidatesFor files track_folder_name).head?

/-- One album entry of `ALBUMS` in `sync_lyrics_from_imports.py`. -/
structure AlbumDef where
  name : String
  sku : String
  ws_album : String
  import_subdir : FPath
deriving DecidableEq, Repr

/-- The per-track decision the sync tool makes and logs: `[SKIP]` for
checkpoint folders, `[MISS]` when no import `.md` matches, or the
resolved import file for a sync. -/
inductive SyncDecision where
  | skip
  | miss
  | sync (import_md : FPath)
deriving DecidableEq, Repr

/-- Abstraction of the sync tool's pull-bucket metadata JSON text. -/
def dumpsSyncMeta (sku album album_dir track_folder source_import_md : String) : String :=
  String.intercalate "\n" ["sync-metadata", sku, album, album_dir, track_folder, source_import_md]

/-- Result of `sync_album`: the ordered per-track decisions plus the
filesystem after the run. -/
structure SyncOut where
  decisions : List (String × SyncDecision)
  fs : FS
deriving DecidableEq, Repr

/-- The `for track_dir in sorted(ws_album.iterdir())` loop of `sync_album`
over the snapshot of entry names: non-directories are passed over silently;
checkpoint folders are skipped; otherwise the import `.md` is resolved, read,
and the track's `data` directory is ensured — all BEFORE the dry-run branch —
and only then does a real run write the workspace and pull-bucket files. -/
def syncTracksLoop (ad : AlbumDef) (base ws_album pb_album import_dir : FPath)
    (dryRun : Bool) : List String → FS → Except String SyncOut
  | [], fs => .ok ⟨[], fs⟩
  | name :: rest, fs =>
    if fs.isDir (ws_album ++ [name]) then
      if strContains name "checkpoint" then
        match syncTracksLoop ad base ws_album pb_album import_dir dryRun rest fs with
        | .error e => .error e
        | .ok out => .ok ⟨(name, .skip) :: out.decisions, out.fs⟩
      else
        match choose_import_md (childFileNames fs import_dir) name with
        | none =>
          match syncTracksLoop ad base ws_album pb_album import_dir dryRun rest fs with
          | .error e => .error e
          | .ok out => .ok ⟨(name, .miss) :: out.decisions, out.fs⟩
        | some fname =>
          match readReq fs (import_dir ++ [fname]) with
          | .error e => .error e
          | .ok lyrics =>
            match mkdirp fs (ws_album ++ [name, "data"]) with
            | .error e => .error e
            | .ok fs1 =>
              if dryRun then
                match syncTracksLoop ad base ws_album pb_album import_dir dryRun rest fs1 with
                | .error e => .error e
                | .ok out =>
                  .ok ⟨(name, .sync (import_dir ++ [fname])) :: out.decisions, out.fs⟩
              else
                match syncTracksLoop ad base ws_album pb_album import_dir dryRun rest
                    (((fs1.setFile (ws_album ++ [name, "data", "lyrics.md"]) lyrics).setFile
                        (pb_album ++ [name ++ ".md"]) lyrics).setFile
                      (pb_album ++ [name ++ ".json"])
                      (dumpsSyncMeta ad.sku ad.name ad.ws_album name
                        (joinPath ((import_dir ++ [fname]).drop base.length)))) with
                | .error e => .error e
                | .ok out =>
                  .ok ⟨(name, .sync (import_dir ++ [fname])) :: out.decisions, out.fs⟩
    else
      syncTracksLoop ad base ws_album pb_album import_dir dryRun rest fs

/-- `sync_album(album_def, dry_run)`: warn-and-skip when the workspace album
or the import directory is absent; otherwise create the pull-bucket album
directory (this happens in dry-run mode too) and process the sorted
workspace entries. -/
def sync_album (ad : AlbumDef) (base : FPath) (dryRun : Bool) (fs : FS) :
    Except String SyncOut :=
  if !(fs.pexists (base ++ [ad.sku, "_workspace", ad.ws_album])) then .ok ⟨[], fs⟩
  else if !(fs.pexists (base ++ ["_imports", "HAWK-ARS-00"] ++ ad.import_subdir)) then
    .ok ⟨[], fs⟩
  else
    match mkdirp fs (base ++ [ad.sku, "_pull-bucket", ad.ws_album]) with
    | .error e => .error e
    | .ok fs1 =>
      syncTracksLoop ad base (base ++ [ad.sku, "_workspace", ad.ws_album])
        (base ++ [ad.sku, "_pull-bucket", ad.ws_album])
        (base ++ ["_imports", "HAWK-ARS-00"] ++ ad.import_subdir) dryRun
        (childNamesAll fs1 (base ++ [ad.sku, "_workspace", ad.ws_album])) fs1

/-- The write shapes a real sync run produces: workspace lyrics files and
pull-bucket `.md`/`.json` files. -/
def shapeOK (ws pb p : FPath) : Prop :=
  (∃ n, p = ws ++ [n, "data", "lyrics.md"]) ∨
  (∃ n, p = pb ++ [n ++ ".md"]) ∨
  (∃ n, p = pb ++ [n ++ ".json"])

theorem char_toNat_ofNat_of_lt {n : Nat} (h : n < 0xd800) : (Char.ofNat n).toNat = n := by
  have hv : n.isValidChar := Or.inl h
  unfold Char.ofNat
  rw [dif_pos hv]
  rfl

theorem toLower_idem (c : Char) : c.toLower.toLower = c.toLower := by
  by_cases h : c.toNat ≥ 65 ∧ c.toNat ≤ 90
  · have h1 : c.toLower = Char.ofNat (c.toNat + 32) := by
      simp only [Char.toLower]
      exact if_pos h
    have h2 : (Char.ofNat (c.toNat + 32)).toNat = c.toNat + 32 :=
      char_toNat_ofNat_of_lt (by omega)
    rw [h1]
    simp only [Char.toLower]
    rw [if_neg (by rw [h2]; omega)]
  · have h1 : c.toLower = c := by
      simp only [Char.toLower]
      exact if_neg h
    rw [h1, h1]

theorem canon_pointwise (c : Char) :
    (fun c => if c = '_' then '-' else c)
        (Char.toLower ((fun c => if c = '_' then '-' else c) (Char.toLower c)))
      = (fun c => if c = '_' then '-' else c) (Char.toLower c) := by
  simp only []
  by_cases h : Char.toLower c = '_'
  · rw [if_pos h]
    decide
  · rw [if_neg h, toLower_idem, if_neg h]

theorem canon_list_idem (l : List Char) :
    ((((l.map Char.toLower).map (fun c => if c = '_' then '-' else c)).map
        Char.toLower).map (fun c => if c = '_' then '-' else c))
      = (l.map Char.toLower).map (fun c => if c = '_' then '-' else c) := by
  induction l with
  | nil => rfl
  | cons a t ih =>
    simp only [List.map_cons]
    exact congrArg₂ List.cons (canon_pointwise a) ih

-- ## Basic filesystem lemmas

theorem mkdir1_files {fs : FS} {q : FPath} {fs' : FS} (h : mkdir1 fs q = .ok fs') :
    fs'.files = fs.files := by
  unfold mkdir1 at h
  split at h
  · cases h
  · split at h
    · cases h; rfl
    · cases h; rfl

theorem mkdirList_files :
    ∀ {l : List FPath} {fs fs' : FS}, mkdirList fs l = .ok fs' → fs'.files = fs.files := by
  intro l
  induction l with
  | nil => intro fs fs' h; cases h; rfl
  | cons q rest ih =>
    intro fs fs' h
    unfold mkdirList at h
    split at h
    · cases h
    · rename_i fs1 h1
      rw [ih h, mkdir1_files h1]

theorem mkdirp_files {fs : FS} {p : FPath} {fs' : FS} (h : mkdirp fs p = .ok fs') :
    fs'.files = fs.files :=
  mkdirList_files h

theorem mkdirp_read {fs : FS} {p : FPath} {fs' : FS} (h : mkdirp fs p = .ok fs') (q : FPath) :
    fs'.read q = fs.read q := by
  unfold FS.read
  rw [mkdirp_files h]

theorem read_setFile (fs : FS) (p q : FPath) (c : String) :
    (fs.setFile p c).read q = if p = q then some c else fs.read q := by
  simp [FS.setFile, FS.read, lookupFile]

theorem read_setFile_ne {fs : FS} {p q : FPath} {c : String} (h : p ≠ q) :
    (fs.setFile p c).read q = fs.read q := by
  rw [read_setFile, if_neg h]

-- ## C1: template application is non-destructive

theorem applyTemplateEntries_preserves (track_dir template_root : FPath) :
    ∀ (entries : List FPath) (fs fs' : FS) (p : FPath) (c : String),
      applyTemplateEntries track_dir template_root entries fs = .ok fs' →
      fs.read p = some c → fs'.read p = some c := by
  intro entries
  induction entries with
  | nil =>
    intro fs fs' p c h hr
    cases h
    exact hr
  | cons tp rest ih =>
    intro fs fs' p c h hr
    unfold applyTemplateEntries at h
    split at h
    · -- directory entry: mkdir target, recurse
      split at h
      · exact Except.noConfusion h
      · rename_i fs1 hm
        exact ih fs1 fs' p c h (by rw [mkdirp_read hm]; exact hr)
    · -- file entry
      split at h
      · -- target exists: skipped, filesystem unchanged
        exact ih fs fs' p c h hr
      · -- target absent: parent mkdir, then copy
        rename_i hnex
        split at h
        · exact Except.noConfusion h
        · rename_i fs1 hm
          split at h
          · rename_i c0 hc0
            refine ih _ fs' p c h ?_
            have hne : track_dir ++ tp.drop template_root.length ≠ p := by
              intro he
              apply hnex
              unfold FS.pexists
              rw [he, hr]
              simp
            rw [read_setFile_ne hne, mkdirp_read hm]
            exact hr
          · exact Except.noConfusion h

/-- C1: applying a track template never changes the content of a file that
already exists at the destination: whatever file `p` contained before
`apply_track_template`, it contains the same text afterwards (so only files
absent from the target are copied, and re-application preserves manual
edits). -/
theorem C1_template_preserves_existing (fs fs' : FS) (track_dir template_root p : FPath)
    (c : String)
    (happ : apply_track_template fs track_dir template_root = .ok fs')
    (hpre : fs.read p = some c) :
    fs'.read p = some c :=
  applyTemplateEntries_preserves track_dir template_root _ fs fs' p c happ hpre

/-- C1 witness: a concrete template (`t/a.md`, `t/b.md`) applied to a target
that already holds `w/a.md` with content `old`: the run copies `b.md`,
succeeds, and leaves `w/a.md` unchanged. -/
theorem C1_template_preserves_existing_witness :
    apply_track_template
        ⟨[["t"], ["w"]], [(["t", "a.md"], "new"), (["t", "b.md"], "tb"), (["w", "a.md"], "old")]⟩
        ["w"] ["t"]
      = .ok ⟨[["t"], ["w"]],
          [(["w", "b.md"], "tb"), (["t", "a.md"], "new"), (["t", "b.md"], "tb"),
            (["w", "a.md"], "old")]⟩ ∧
    (FS.mk [["t"], ["w"]]
        [(["t", "a.md"], "new"), (["t", "b.md"], "tb"), (["w", "a.md"], "old")]).read
        ["w", "a.md"] = some "old" ∧
    (FS.mk [["t"], ["w"]]
        [(["w", "b.md"], "tb"), (["t", "a.md"], "new"), (["t", "b.md"], "tb"),
          (["w", "a.md"], "old")]).read ["w", "a.md"] = some "old" :=
  ⟨by decide, by decide,
    C1_template_preserves_existing
      ⟨[["t"], ["w"]], [(["t", "a.md"], "new"), (["t", "b.md"], "tb"), (["w", "a.md"], "old")]⟩
      ⟨[["t"], ["w"]],
        [(["w", "b.md"], "tb"), (["t", "a.md"], "new"), (["t", "b.md"], "tb"),
          (["w", "a.md"], "old")]⟩
      ["w"] ["t"] ["w", "a.md"] "old" (by decide) (by decide)⟩

-- ## C2: the import-file filter

/-- C2: the Album Builder processes exactly the filenames matched by
`^(\d{2})[_-](.+)\.md$` (case-insensitive) that do not contain
`-checkpoint`: `05_return_of_kings.md` matches with groups
`("05", "return_of_kings")`; `checkpoint.md` and `notes.txt` do not match;
`05_foo-checkpoint.md` matches the regex but is excluded by the checkpoint
filter; and a build run over only non-matching files succeeds silently with
an empty track list and no warnings. -/
theorem C2_track_file_filter :
    importFileAction "05_return_of_kings.md" = some ("05", "return_of_kings") ∧
    importFileAction "checkpoint.md" = none ∧
    importFileAction "notes.txt" = none ∧
    importFileAction "05_foo-checkpoint.md" = none ∧
    trackFileMatch "05_foo-checkpoint.md" = some ("05", "foo-checkpoint") ∧
    (build_workspaces_for_album ⟨"SKU", "AC", ["imp"], "WS", "PB"⟩ [] ["tpl"]
        ⟨[["imp"]],
          [(["imp", "notes.txt"], "x"), (["imp", "checkpoint.md"], "y"),
            (["imp", "05_foo-checkpoint.md"], "z")]⟩).map
        (fun o => (o.tracks, o.warns))
      = .ok ([], []) :=
  ⟨by decide, by decide, by decide, by decide, by decide, by decide⟩

-- ## C3: slug canonicalization

/-- C3: `canonicalize_slug` maps each character independently (lowercase,
then underscore to hyphen, no other modification), is pure and
deterministic, is idempotent on every string, and sends `My_Song` to
`my-song`. -/
theorem C3_canonicalize_slug_idempotent :
    canonicalize_slug "My_Song" = "my-song" ∧
    (∀ s : String,
      (canonicalize_slug s).data
        = s.data.map (fun c => if Char.toLower c = '_' then '-' else Char.toLower c)) ∧
    ∀ s : String, canonicalize_slug (canonicalize_slug s) = canonicalize_slug s := by
  refine ⟨by decide, ?_, fun s => congrArg String.mk (canon_list_idem s.data)⟩
  intro s
  show (s.data.map Char.toLower).map _ = _
  rw [List.map_map]
  rfl

-- ## More mkdir lemmas (for C8/C9)

theorem pmem_iff {p : FPath} : ∀ {l : List FPath}, pmem p l = true ↔ p ∈ l := by
  intro l
  induction l with
  | nil => simp [pmem]
  | cons q r ih =>
    by_cases h : q = p
    · simp [pmem, h]
    · simp only [pmem, if_neg h, ih, List.mem_cons]
      constructor
      · exact Or.inr
      · rintro (h1 | h1)
        · exact absurd h1.symm h
        · exact h1

theorem mkdir1_ok {fs : FS} {q : FPath} {fs' : FS} (h : mkdir1 fs q = .ok fs') :
    (fs.read q).isSome = false ∧ fs'.files = fs.files ∧
      ∀ x, x ∈ fs'.dirs ↔ (x ∈ fs.dirs ∨ x = q) := by
  unfold mkdir1 at h
  split at h
  · exact Except.noConfusion h
  · rename_i hread
    split at h
    · rename_i hdir
      cases h
      refine ⟨by simpa using hread, rfl, fun x => ?_⟩
      constructor
      · exact Or.inl
      · rintro (h1 | h1)
        · exact h1
        · rw [h1]; exact pmem_iff.mp hdir
    · cases h
      refine ⟨by simpa using hread, rfl, fun x => ?_⟩
      simp only [List.mem_cons]
      constructor
      · rintro (h1 | h1)
        · exact Or.inr h1
        · exact Or.inl h1
      · rintro (h1 | h1)
        · exact Or.inr h1
        · exact Or.inl h1

theorem mkdirList_ok :
    ∀ {l : List FPath} {fs fs' : FS}, mkdirList fs l = .ok fs' →
      fs'.files = fs.files ∧
      (∀ x, x ∈ fs'.dirs ↔ (x ∈ fs.dirs ∨ x ∈ l)) ∧
      ∀ q ∈ l, (fs.read q).isSome = false := by
  intro l
  induction l with
  | nil =>
    intro fs fs' h
    cases h
    exact ⟨rfl, fun x => by simp, by simp⟩
  | cons q rest ih =>
    intro fs fs' h
    unfold mkdirList at h
    split at h
    · exact Except.noConfusion h
    · rename_i fs1 h1
      obtain ⟨hrd, hf1, hd1⟩ := mkdir1_ok h1
      obtain ⟨hf, hd, hq⟩ := ih h
      refine ⟨hf.trans hf1, fun x => ?_, fun r hr => ?_⟩
      · rw [hd x, hd1 x]
        simp only [List.mem_cons]
        tauto
      · rcases List.mem_cons.mp hr with h2 | h2
        · rw [h2]; exact hrd
        · have := hq r h2
          rwa [show fs1.read r = fs.read r from by unfold FS.read; rw [hf1]] at this

theorem mkdirList_noop :
    ∀ {l : List FPath} {fs : FS},
      (∀ q ∈ l, q ∈ fs.dirs ∧ (fs.read q).isSome = false) → mkdirList fs l = .ok fs := by
  intro l
  induction l with
  | nil => intro fs _; rfl
  | cons q rest ih =>
    intro fs hq
    obtain ⟨hd, hr⟩ := hq q (List.mem_cons_self q rest)
    unfold mkdirList mkdir1
    rw [if_neg (by simp [hr]), if_pos (show fs.isDir q = true from pmem_iff.mpr hd)]
    exact ih (fun r hrr => hq r (List.mem_cons_of_mem q hrr))

theorem mkdirp_ok {fs : FS} {p : FPath} {fs' : FS} (h : mkdirp fs p = .ok fs') :
    fs'.files = fs.files ∧
      (∀ x, x ∈ fs'.dirs ↔ (x ∈ fs.dirs ∨ x ∈ prefixesOf p)) ∧
      ∀ q ∈ prefixesOf p, (fs.read q).isSome = false :=
  mkdirList_ok h

theorem mkdirp_again {fs : FS} {p : FPath} {fs' : FS} (h : mkdirp fs p = .ok fs') :
    mkdirp fs' p = .ok fs' := by
  obtain ⟨hf, hd, hq⟩ := mkdirp_ok h
  apply mkdirList_noop
  intro q hqp
  refine ⟨(hd q).mpr (Or.inr hqp), ?_⟩
  rw [show fs'.read q = fs.read q from by unfold FS.read; rw [hf]]
  exact hq q hqp

theorem pexists_of_parts (fs fs' : FS) (p : FPath)
    (hf : fs'.files = fs.files) (hd : p ∈ fs'.dirs ↔ p ∈ fs.dirs) :
    fs'.pexists p = fs.pexists p := by
  unfold FS.pexists FS.isDir FS.read
  rw [hf]
  by_cases h : p ∈ fs.dirs
  · rw [pmem_iff.mpr h, pmem_iff.mpr (hd.mpr h)]
  · have h1 : pmem p fs.dirs = false := by
      cases h2 : pmem p fs.dirs
      · rfl
      · exact absurd (pmem_iff.mp h2) h
    have h2 : pmem p fs'.dirs = false := by
      cases h3 : pmem p fs'.dirs
      · rfl
      · exact absurd (hd.mp (pmem_iff.mp h3)) h
    rw [h1, h2]

-- ## C9: missing import directory is non-fatal

/-- C9: when an album's import directory does not exist, the Album Builder
returns normally with an empty track list and exactly the `[WARN]` line; the
subsequent pull-bucket build is a no-op on the empty list, and the
`main` loop over the remaining album specs proceeds unchanged (non-fatal).
The two `∉` hypotheses say that creating the album's workspace and
pull-bucket directories does not itself create the import directory (true of
every spec whose import directory lives under `_imports`). -/
theorem C9_missing_import_dir (spec : AlbumSpec) (base template_root : FPath) (fs : FS)
    (out : BuildOut)
    (hmiss : fs.pexists (base ++ spec.import_dir) = false)
    (hw : base ++ spec.import_dir
      ∉ prefixesOf (base ++ [spec.sku, "_workspace", spec.workspace_album]))
    (hp : base ++ spec.import_dir
      ∉ prefixesOf (base ++ [spec.sku, "_pull-bucket", spec.pull_album]))
    (h : build_workspaces_for_album spec base template_root fs = .ok out) :
    out.tracks = [] ∧
    out.warns = ["[WARN] Import directory not found: " ++ joinPath (base ++ spec.import_dir)] ∧
    build_pull_bucket_for_album spec base out.tracks out.fs = .ok out.fs ∧
    ∀ rest, processAlbums base template_root (spec :: rest) fs
      = (processAlbums base template_root rest out.fs).map (fun r => ([] :: r.1, r.2)) := by
  unfold build_workspaces_for_album at h
  split at h
  · exact Except.noConfusion h
  · rename_i fs1 hm1
    split at h
    · exact Except.noConfusion h
    · rename_i fs2 hm2
      obtain ⟨hf1, hd1, -⟩ := mkdirp_ok hm1
      obtain ⟨hf2, hd2, -⟩ := mkdirp_ok hm2
      have hex1 : fs1.pexists (base ++ spec.import_dir) = false := by
        rw [pexists_of_parts fs fs1 _ hf1 ((hd1 _).trans (or_iff_left hw))]
        exact hmiss
      have hex2 : fs2.pexists (base ++ spec.import_dir) = false := by
        rw [pexists_of_parts fs1 fs2 _ hf2 ((hd2 _).trans (or_iff_left hp))]
        exact hex1
      split at h
      · have hout : out
            = ⟨[], fs2,
                ["[WARN] Import directory not found: " ++ joinPath (base ++ spec.import_dir)]⟩ :=
          (Except.ok.inj h).symm
        subst hout
        have hpull : build_pull_bucket_for_album spec base ([] : List TrackRec) fs2
            = .ok fs2 := by
          unfold build_pull_bucket_for_album
          rw [mkdirp_again hm2]
          rfl
        refine ⟨rfl, rfl, hpull, fun rest => ?_⟩
        have hbuild : build_workspaces_for_album spec base template_root fs
            = .ok ⟨[], fs2,
                ["[WARN] Import directory not found: " ++ joinPath (base ++ spec.import_dir)]⟩ := by
          unfold build_workspaces_for_album
          simp only [hm1, hm2, hex2]
          rfl
        simp only [processAlbums, hbuild, hpull]
        cases hrest : processAlbums base template_root rest fs2 with
        | error e => simp [Except.map]
        | ok r => simp [Except.map]
      · rename_i hcond
        exact absurd (by rw [hex2]; rfl) hcond

/-- C9 witness: a concrete spec over an empty filesystem (import directory
absent): the build succeeds with no tracks and the warning, the pull-bucket
step is a no-op, and the album loop continues with the next specs. -/
theorem C9_missing_import_dir_witness :
    (FS.mk [] []).pexists ["imp"] = false ∧
    build_workspaces_for_album ⟨"SKU", "AC", ["imp"], "WS", "PB"⟩ [] ["tpl"] ⟨[], []⟩
      = .ok ⟨[],
          ⟨[["SKU", "_pull-bucket", "PB"], ["SKU", "_pull-bucket"], ["SKU", "_workspace", "WS"],
            ["SKU", "_workspace"], ["SKU"]], []⟩,
          ["[WARN] Import directory not found: imp"]⟩ ∧
    (BuildOut.mk []
        ⟨[["SKU", "_pull-bucket", "PB"], ["SKU", "_pull-bucket"], ["SKU", "_workspace", "WS"],
          ["SKU", "_workspace"], ["SKU"]], []⟩
        ["[WARN] Import directory not found: imp"]).tracks = [] ∧
    (BuildOut.mk []
        ⟨[["SKU", "_pull-bucket", "PB"], ["SKU", "_pull-bucket"], ["SKU", "_workspace", "WS"],
          ["SKU", "_workspace"], ["SKU"]], []⟩
        ["[WARN] Import directory not found: imp"]).warns
      = ["[WARN] Import directory not found: imp"] ∧
    build_pull_bucket_for_album ⟨"SKU", "AC", ["imp"], "WS", "PB"⟩ []
        (BuildOut.mk []
          ⟨[["SKU", "_pull-bucket", "PB"], ["SKU", "_pull-bucket"], ["SKU", "_workspace", "WS"],
            ["SKU", "_workspace"], ["SKU"]], []⟩
          ["[WARN] Import directory not found: imp"]).tracks
        (BuildOut.mk []
          ⟨[["SKU", "_pull-bucket", "PB"], ["SKU", "_pull-bucket"], ["SKU", "_workspace", "WS"],
            ["SKU", "_workspace"], ["SKU"]], []⟩
          ["[WARN] Import directory not found: imp"]).fs
      = .ok (BuildOut.mk []
          ⟨[["SKU", "_pull-bucket", "PB"], ["SKU", "_pull-bucket"], ["SKU", "_workspace", "WS"],
            ["SKU", "_workspace"], ["SKU"]], []⟩
          ["[WARN] Import directory not found: imp"]).fs :=
  ⟨by decide, by decide,
    have h9 := C9_missing_import_dir ⟨"SKU", "AC", ["imp"], "WS", "PB"⟩ [] ["tpl"] ⟨[], []⟩
      (BuildOut.mk []
        ⟨[["SKU", "_pull-bucket", "PB"], ["SKU", "_pull-bucket"], ["SKU", "_workspace", "WS"],
          ["SKU", "_workspace"], ["SKU"]], []⟩
        ["[WARN] Import directory not found: imp"])
      (by decide) (by decide) (by decide) (by decide)
    ⟨h9.1, h9.2.1, h9.2.2.1⟩⟩

-- ## String and path injectivity lemmas

theorem str_data_append (a b : String) : (a ++ b).data = a.data ++ b.data := rfl

theorem str_append_right_cancel {a b suf : String} (h : a ++ suf = b ++ suf) : a = b := by
  apply String.ext
  have hd := congrArg String.data h
  rw [str_data_append, str_data_append] at hd
  exact List.append_cancel_right hd

theorem append_last_ne {c d : Char} {s t : String} (hs : s.data.getLast? = some c)
    (ht : t.data.getLast? = some d) (hne : c ≠ d) (a b : String) : a ++ s ≠ b ++ t := by
  intro h
  have hd2 := congrArg (fun x : String => x.data.getLast?) h
  simp only [str_data_append, List.getLast?_append, hs, ht] at hd2
  have h3 : (some c : Option Char) = some d := hd2
  exact hne (Option.some.inj h3)

theorem snoc_inj {pd : FPath} {x y : String} (h : pd ++ [x] = pd ++ [y]) : x = y := by
  have h1 := List.append_cancel_left h
  injection h1

theorem snoc_ne {pd : FPath} {x y : String} (h : x ≠ y) : pd ++ [x] ≠ pd ++ [y] :=
  fun he => h (snoc_inj he)

theorem readReq_ok {fs : FS} {p : FPath} {c : String} :
    readReq fs p = .ok c ↔ fs.read p = some c := by
  unfold readReq
  cases h : fs.read p <;> simp

-- ## C7: pull-bucket build round-trip

theorem pullLoop_frame (spec : AlbumSpec) (base pd : FPath) :
    ∀ (tracks : List TrackRec) (fs fsF : FS) (p : FPath),
      pullLoop spec base pd tracks fs = .ok fsF →
      (∀ t ∈ tracks, p ≠ pd ++ [fileRootOf t ++ ".md"] ∧ p ≠ pd ++ [fileRootOf t ++ ".json"]) →
      fsF.read p = fs.read p := by
  intro tracks
  induction tracks with
  | nil =>
    intro fs fsF p h _
    cases h
    rfl
  | cons t rest ih =>
    intro fs fsF p h hp
    unfold pullLoop at h
    split at h
    · exact Except.noConfusion h
    · rename_i lyr hr
      rw [ih _ fsF p h (fun t' ht' => hp t' (List.mem_cons_of_mem t ht'))]
      obtain ⟨hmd, hjson⟩ := hp t (List.mem_cons_self t rest)
      rw [read_setFile_ne (fun he => hjson he.symm), read_setFile_ne (fun he => hmd he.symm)]

theorem pullLoop_roundtrip (spec : AlbumSpec) (base pd : FPath) :
    ∀ (tracks : List TrackRec) (fs fsF : FS) (track : TrackRec) (T : String),
      track ∈ tracks →
      (tracks.map fileRootOf).Nodup →
      (∀ n : String, track.lyrics_path ≠ pd ++ [n]) →
      fs.read track.lyrics_path = some T →
      pullLoop spec base pd tracks fs = .ok fsF →
      fsF.read (pd ++ [fileRootOf track ++ ".md"]) = some T := by
  intro tracks
  induction tracks with
  | nil =>
    intro fs fsF track T hmem
    exact absurd hmem (List.not_mem_nil track)
  | cons t rest ih =>
    intro fs fsF track T hmem hnodup hlyr hread hrun
    rw [List.map_cons] at hnodup
    have hnodup' := List.nodup_cons.mp hnodup
    unfold pullLoop at hrun
    split at hrun
    · exact Except.noConfusion hrun
    · rename_i lyr hr
      rcases List.mem_cons.mp hmem with heq | hmem'
      · subst heq
        have hlv : lyr = T := by
          have h1 := readReq_ok.mp hr
          rw [hread] at h1
          exact (Option.some.inj h1).symm
        subst hlv
        have hframe := pullLoop_frame spec base pd rest _ fsF
          (pd ++ [fileRootOf track ++ ".md"]) hrun ?_
        · rw [hframe]
          rw [read_setFile_ne (snoc_ne
            (append_last_ne (s := ".json") (t := ".md") rfl rfl (by decide)
              (fileRootOf track) (fileRootOf track)))]
          simp [read_setFile]
        · intro t' ht'
          have hroot : fileRootOf track ≠ fileRootOf t' := by
            intro he
            exact hnodup'.1 (he ▸ List.mem_map_of_mem fileRootOf ht')
          constructor
          · exact snoc_ne (fun he => hroot (str_append_right_cancel he))
          · exact snoc_ne
              (append_last_ne (s := ".md") (t := ".json") rfl rfl (by decide) _ _)
      · apply ih _ fsF track T hmem' hnodup'.2 hlyr ?_ hrun
        rw [read_setFile_ne (fun he => hlyr _ he.symm),
          read_setFile_ne (fun he => hlyr _ he.symm)]
        exact hread

/-- C7: for every track record handed to the Pull-Bucket Builder, the lyrics
text is re-read from the recorded workspace lyrics path on the current
filesystem, and the pull-bucket file `{track_number}_{canonical_slug}.md`
ends up with exactly that text, byte for byte.  The hypotheses say the track
is in the list, the pull-bucket file roots are pairwise distinct, and the
workspace lyrics file does not itself live in the pull-bucket directory (so
its content at read time is the initial content) — all true of the layouts
the Album Builder produces. -/
theorem C7_pull_bucket_roundtrip (spec : AlbumSpec) (base : FPath)
    (tracks : List TrackRec) (fs fsF : FS) (track : TrackRec) (T : String)
    (hmem : track ∈ tracks)
    (hnodup : (tracks.map fileRootOf).Nodup)
    (hlyr : ∀ n : String,
      track.lyrics_path ≠ base ++ [spec.sku, "_pull-bucket", spec.pull_album] ++ [n])
    (hread : fs.read track.lyrics_path = some T)
    (hrun : build_pull_bucket_for_album spec base tracks fs = .ok fsF) :
    fsF.read (base ++ [spec.sku, "_pull-bucket", spec.pull_album]
        ++ [fileRootOf track ++ ".md"]) = some T := by
  unfold build_pull_bucket_for_album at hrun
  split at hrun
  · exact Except.noConfusion hrun
  · rename_i fs1 hm
    apply pullLoop_roundtrip spec base _ tracks fs1 fsF track T hmem hnodup hlyr ?_ hrun
    rw [mkdirp_read hm]
    exact hread

/-- C7 witness: one concrete track whose workspace lyrics file holds `TT`;
after the pull-bucket build, `SKU/_pull-bucket/PB/05_my-song.md` holds
exactly `TT`. -/
theorem C7_pull_bucket_roundtrip_witness :
    (FS.mk [["w"]] [(["w", "lyr.md"], "TT")]).read ["w", "lyr.md"] = some "TT" ∧
    build_pull_bucket_for_album ⟨"SKU", "AC", ["imp"], "WS", "PB"⟩ []
        [⟨"05", "My_Song", "my-song", ["w"], ["w", "lyr.md"]⟩]
        ⟨[["w"]], [(["w", "lyr.md"], "TT")]⟩
      = .ok ⟨[["SKU", "_pull-bucket", "PB"], ["SKU", "_pull-bucket"], ["SKU"], ["w"]],
          [(["SKU", "_pull-bucket", "PB", "05_my-song.json"],
              "pull-metadata\nSKU\nWS\nAC\n05\nmy-song\nMy_Song\nimp\nw"),
            (["SKU", "_pull-bucket", "PB", "05_my-song.md"], "TT"),
            (["w", "lyr.md"], "TT")]⟩ ∧
    (FS.read ⟨[["SKU", "_pull-bucket", "PB"], ["SKU", "_pull-bucket"], ["SKU"], ["w"]],
          [(["SKU", "_pull-bucket", "PB", "05_my-song.json"],
              "pull-metadata\nSKU\nWS\nAC\n05\nmy-song\nMy_Song\nimp\nw"),
            (["SKU", "_pull-bucket", "PB", "05_my-song.md"], "TT"),
            (["w", "lyr.md"], "TT")]⟩
        ["SKU", "_pull-bucket", "PB", "05_my-song.md"]) = some "TT" :=
  ⟨by decide, by decide,
    C7_pull_bucket_roundtrip ⟨"SKU", "AC", ["imp"], "WS", "PB"⟩ []
      [⟨"05", "My_Song", "my-song", ["w"], ["w", "lyr.md"]⟩]
      ⟨[["w"]], [(["w", "lyr.md"], "TT")]⟩
      ⟨[["SKU", "_pull-bucket", "PB"], ["SKU", "_pull-bucket"], ["SKU"], ["w"]],
          [(["SKU", "_pull-bucket", "PB", "05_my-song.json"],
              "pull-metadata\nSKU\nWS\nAC\n05\nmy-song\nMy_Song\nimp\nw"),
            (["SKU", "_pull-bucket", "PB", "05_my-song.md"], "TT"),
            (["w", "lyr.md"], "TT")]⟩
      ⟨"05", "My_Song", "my-song", ["w"], ["w", "lyr.md"]⟩ "TT"
      (by decide) (by decide)
      (fun n he => by simpa using congrArg List.length he)
      (by decide) (by decide)⟩

-- ## C8: notebook copier (corrected)

theorem notebook_disjoint (base : FPath) :
    base ++ SUN_TZU_NOTEBOOK ∉ prefixesOf (base ++ SUN_TZU_DEST).dropLast := by
  intro hmem
  simp only [prefixesOf, List.mem_map, List.mem_range] at hmem
  obtain ⟨i, hi, heq⟩ := hmem
  have hlen := congrArg List.length heq
  simp only [List.length_take, List.length_dropLast, List.length_append,
    SUN_TZU_NOTEBOOK, SUN_TZU_DEST, List.length_cons, List.length_nil] at hlen hi
  omega

/-- C8 counterexample: the claim says that with the source notebook absent
the copier "performs no filesystem changes".  On an empty filesystem the
copier warns but still creates the destination's parent directories, so the
resulting filesystem differs from the initial one. -/
theorem C8_notebook_copier_counterexample :
    (FS.mk [] []).pexists ([] ++ SUN_TZU_NOTEBOOK) = false ∧
    copy_sun_tzu_notebook [] ⟨[], []⟩
      = .ok (⟨[["HAWK-ARS-04", "_workspace", "01_Sun_Tzu_Secretz_To_War"],
                ["HAWK-ARS-04", "_workspace"], ["HAWK-ARS-04"]], []⟩,
          ["[WARN] Sun Tzu notebook not found at _imports/HAWK-ARS-00/04_reckoning/Sun_Tzu.ipynb"]) ∧
    (FS.mk [["HAWK-ARS-04", "_workspace", "01_Sun_Tzu_Secretz_To_War"],
        ["HAWK-ARS-04", "_workspace"], ["HAWK-ARS-04"]] [] : FS) ≠ ⟨[], []⟩ :=
  ⟨by decide, by decide, by decide⟩

/-- C8 (amended): the Notebook Copier first ensures the destination's parent
directory exists (creating it even when the source is absent — this is the
only filesystem change in that case, and no file is touched), emits the
warning, and otherwise copies the source file to the fixed destination,
unconditionally overwriting any existing destination file. -/
theorem C8_notebook_copier_amended (base : FPath) (fs : FS) :
    (∀ fs' logs, copy_sun_tzu_notebook base fs = .ok (fs', logs) →
      fs.pexists (base ++ SUN_TZU_NOTEBOOK) = false →
      fs'.files = fs.files ∧
      (∀ x, x ∈ fs'.dirs ↔ x ∈ fs.dirs ∨ x ∈ prefixesOf (base ++ SUN_TZU_DEST).dropLast) ∧
      logs = ["[WARN] Sun Tzu notebook not found at " ++ joinPath (base ++ SUN_TZU_NOTEBOOK)]) ∧
    (∀ c fs' logs, fs.read (base ++ SUN_TZU_NOTEBOOK) = some c →
      copy_sun_tzu_notebook base fs = .ok (fs', logs) →
      fs'.read (base ++ SUN_TZU_DEST) = some c ∧
      logs = ["[SPECIAL] Copied Sun_Tzu.ipynb to " ++ joinPath (base ++ SUN_TZU_DEST)]) := by
  constructor
  · intro fs' logs h hmiss
    unfold copy_sun_tzu_notebook at h
    split at h
    · exact Except.noConfusion h
    · rename_i fs1 hm
      obtain ⟨hf1, hd1, -⟩ := mkdirp_ok hm
      have hex1 : fs1.pexists (base ++ SUN_TZU_NOTEBOOK) = false := by
        rw [pexists_of_parts fs fs1 _ hf1 ((hd1 _).trans (or_iff_left (notebook_disjoint base)))]
        exact hmiss
      split at h
      · obtain ⟨h1, h2⟩ := Prod.mk.injEq .. ▸ (Except.ok.inj h)
        exact ⟨h1 ▸ hf1, fun x => h1 ▸ hd1 x, h2.symm⟩
      · rename_i hcond
        exact absurd (by rw [hex1]; rfl) hcond
  · intro c fs' logs hsrc h
    unfold copy_sun_tzu_notebook at h
    split at h
    · exact Except.noConfusion h
    · rename_i fs1 hm
      have hr1 : fs1.read (base ++ SUN_TZU_NOTEBOOK) = some c := by
        rw [mkdirp_read hm]
        exact hsrc
      have hex1 : fs1.pexists (base ++ SUN_TZU_NOTEBOOK) = true := by
        unfold FS.pexists
        rw [hr1]
        simp
      split at h
      · rename_i hcond
        rw [hex1] at hcond
        exact absurd hcond (by decide)
      · split at h
        · rename_i c0 hc0
          rw [hr1] at hc0
          obtain ⟨h1, h2⟩ := Prod.mk.injEq .. ▸ (Except.ok.inj h)
          refine ⟨?_, h2.symm⟩
          rw [← h1, read_setFile, if_pos rfl, ← Option.some.inj hc0]
        · rw [hr1] at *
          exact Except.noConfusion h

/-- C8 witness: both branches of the amended theorem at concrete inputs:
with the source absent the files are untouched (only the destination's
parent chain is created); with the source present its bytes land at the
fixed destination. -/
theorem C8_notebook_copier_amended_witness :
    (FS.mk [] []).pexists ([] ++ SUN_TZU_NOTEBOOK) = false ∧
    copy_sun_tzu_notebook [] ⟨[], []⟩
      = .ok (⟨[["HAWK-ARS-04", "_workspace", "01_Sun_Tzu_Secretz_To_War"],
                ["HAWK-ARS-04", "_workspace"], ["HAWK-ARS-04"]], []⟩,
          ["[WARN] Sun Tzu notebook not found at _imports/HAWK-ARS-00/04_reckoning/Sun_Tzu.ipynb"]) ∧
    (FS.mk [["HAWK-ARS-04", "_workspace", "01_Sun_Tzu_Secretz_To_War"],
        ["HAWK-ARS-04", "_workspace"], ["HAWK-ARS-04"]] []).files = (FS.mk [] []).files ∧
    (FS.mk [] [(["_imports", "HAWK-ARS-00", "04_reckoning", "Sun_Tzu.ipynb"], "NB")]).read
        ([] ++ SUN_TZU_NOTEBOOK) = some "NB" ∧
    copy_sun_tzu_notebook [] ⟨[], [(["_imports", "HAWK-ARS-00", "04_reckoning", "Sun_Tzu.ipynb"], "NB")]⟩
      = .ok (⟨[["HAWK-ARS-04", "_workspace", "01_Sun_Tzu_Secretz_To_War"],
                ["HAWK-ARS-04", "_workspace"], ["HAWK-ARS-04"]],
              [(["HAWK-ARS-04", "_workspace", "01_Sun_Tzu_Secretz_To_War", "Sun_Tzu.ipynb"], "NB"),
               (["_imports", "HAWK-ARS-00", "04_reckoning", "Sun_Tzu.ipynb"], "NB")]⟩,
          ["[SPECIAL] Copied Sun_Tzu.ipynb to HAWK-ARS-04/_workspace/01_Sun_Tzu_Secretz_To_War/Sun_Tzu.ipynb"]) ∧
    (FS.mk [["HAWK-ARS-04", "_workspace", "01_Sun_Tzu_Secretz_To_War"],
        ["HAWK-ARS-04", "_workspace"], ["HAWK-ARS-04"]]
        [(["HAWK-ARS-04", "_workspace", "01_Sun_Tzu_Secretz_To_War", "Sun_Tzu.ipynb"], "NB"),
         (["_imports", "HAWK-ARS-00", "04_reckoning", "Sun_Tzu.ipynb"], "NB")]).read
        ([] ++ SUN_TZU_DEST) = some "NB" :=
  ⟨by decide, by decide,
    ((C8_notebook_copier_amended [] ⟨[], []⟩).1
      ⟨[["HAWK-ARS-04", "_workspace", "01_Sun_Tzu_Secretz_To_War"],
        ["HAWK-ARS-04", "_workspace"], ["HAWK-ARS-04"]], []⟩
      ["[WARN] Sun Tzu notebook not found at _imports/HAWK-ARS-00/04_reckoning/Sun_Tzu.ipynb"]
      (by decide) (by decide)).1,
    by decide, by decide,
    ((C8_notebook_copier_amended []
        ⟨[], [(["_imports", "HAWK-ARS-00", "04_reckoning", "Sun_Tzu.ipynb"], "NB")]⟩).2
      "NB"
      ⟨[["HAWK-ARS-04", "_workspace", "01_Sun_Tzu_Secretz_To_War"],
        ["HAWK-ARS-04", "_workspace"], ["HAWK-ARS-04"]],
       [(["HAWK-ARS-04", "_workspace", "01_Sun_Tzu_Secretz_To_War", "Sun_Tzu.ipynb"], "NB"),
        (["_imports", "HAWK-ARS-00", "04_reckoning", "Sun_Tzu.ipynb"], "NB")]⟩
      ["[SPECIAL] Copied Sun_Tzu.ipynb to HAWK-ARS-04/_workspace/01_Sun_Tzu_Secretz_To_War/Sun_Tzu.ipynb"]
      (by decide) (by decide)).1⟩

theorem smem_iff {t : String} : ∀ {l : List String}, smem t l = true ↔ t ∈ l := by
  intro l
  induction l with
  | nil => simp [smem]
  | cons s r ih =>
    by_cases h : s = t
    · simp [smem, h]
    · simp only [smem, if_neg h, ih, List.mem_cons]
      constructor
      · exact Or.inr
      · rintro (h1 | h1)
        · exact absurd h1.symm h
        · exact h1

/-- C4: the Tree Diff Reporter's diff is pure set arithmetic with
deterministic sorted output: each difference section contains exactly the
corresponding set difference, in sorted order, all sections computed
independently and emitted together; on the claim's concrete example the
report lists exactly `02_b` missing in the workspace and `03_c` extra in the
pull-bucket, and nothing else. -/
theorem C4_diff_set_arithmetic :
    (∀ (a b : List String) (t : String), t ∈ sortedSetDiff a b ↔ (t ∈ a ∧ t ∉ b)) ∧
    (∀ a b : List String, (sortedSetDiff a b).Sorted strLe) ∧
    diffReport
        ⟨[["W", "01_a"]],
          [(["W", "01_a", "data", "lyrics.md"], "x"),
            (["W", "01_a", "data", "metadata.json"], "m"),
            (["W", "01_a", "01_a.ipynb"], "n")]⟩
        ["01_a", "02_b"] [("01_a", ["W", "01_a"])] ["01_a", "02_b", "03_c"]
      = ["❌ Missing in WORKSPACE:", "   - 02_b", "",
          "⚠️ Extra tracks in PULL-BUCKET (not in imports):", "   - 03_c", ""] ∧
    diff
        ⟨[["W", "01_a"]],
          [(["W", "01_a", "data", "lyrics.md"], "x"),
            (["W", "01_a", "data", "metadata.json"], "m"),
            (["W", "01_a", "01_a.ipynb"], "n")]⟩
        ["01_a", "02_b"] [("01_a", ["W", "01_a"])] ["01_a", "02_b", "03_c"]
      = "❌ Missing in WORKSPACE:\n   - 02_b\n\n⚠️ Extra tracks in PULL-BUCKET (not in imports):\n   - 03_c\n" := by
  refine ⟨?_, ?_, by decide, by decide⟩
  · intro a b t
    simp only [sortedSetDiff, sortStrings, List.mem_insertionSort, List.mem_filter,
      List.mem_dedup, Bool.not_eq_true', ← smem_iff]
    simp
  · intro a b
    exact List.sorted_insertionSort strLe _

/-- C10: assuming the filesystem does not change during a diff run, the
reporter never emits the "missing lyrics.md" incomplete-workspace finding:
the workspace scan (`list_tracks`) only admits subdirectories containing
`data/lyrics.md`, so in the per-track completeness block the lyrics branch is
unreachable — only `metadata.json` and `{t}.ipynb` can ever be reported. -/
theorem C10_no_missing_lyrics_finding (fs : FS) (base : FPath) (t : String) (ws : FPath)
    (hmem : (t, ws) ∈ list_tracks fs base) :
    "   - missing lyrics.md" ∉ incompleteBlock fs t ws := by
  unfold list_tracks at hmem
  split at hmem
  · rw [List.mem_filterMap] at hmem
    obtain ⟨name, -, hf⟩ := hmem
    split at hf
    · split at hf
      · rename_i hlyr
        obtain ⟨h1, h2⟩ := Prod.mk.injEq .. ▸ (Option.some.inj hf)
        subst h1
        have hlyr' : fs.pexists (ws ++ ["data", "lyrics.md"]) = true := by
          rw [← h2, List.append_assoc]
          exact hlyr
        intro hmem2
        simp only [incompleteBlock, hlyr', Bool.not_true, Bool.false_or] at hmem2
        split at hmem2
        · simp only [List.nil_append, List.mem_cons, List.mem_append] at hmem2
          rcases hmem2 with hA | ((hB | hC) | hD) | hE | hF
          · exact append_last_ne (s := "   - missing lyrics.md") (t := ":") rfl rfl
              (by decide) "" ("⚠️ Incomplete WORKSPACE for " ++ name) hA
          · simp at hB
          · split at hC
            · exact absurd (List.mem_singleton.mp hC) (by decide)
            · simp at hC
          · split at hD
            · exact append_last_ne (s := ".md") (t := ".ipynb") rfl rfl (by decide)
                "   - missing lyrics" ("   - missing " ++ name) (List.mem_singleton.mp hD)
            · simp at hD
          · exact absurd hE (by decide)
          · simp at hF
        · exact absurd hmem2 (List.not_mem_nil _)
      · exact Option.noConfusion hf
    · exact Option.noConfusion hf
  · exact absurd hmem (List.not_mem_nil _)

/-- C10 witness: a concrete workspace with one valid track (its
`data/lyrics.md` exists): the track appears in the scan and its completeness
block (here flagging only the missing notebook) contains no
"missing lyrics.md" line. -/
theorem C10_no_missing_lyrics_finding_witness :
    ("01_a", ["W", "01_a"]) ∈ list_tracks
        ⟨[["W"], ["W", "01_a"]],
          [(["W", "01_a", "data", "lyrics.md"], "x"),
            (["W", "01_a", "data", "metadata.json"], "m")]⟩ ["W"] ∧
    incompleteBlock
        ⟨[["W"], ["W", "01_a"]],
          [(["W", "01_a", "data", "lyrics.md"], "x"),
            (["W", "01_a", "data", "metadata.json"], "m")]⟩ "01_a" ["W", "01_a"]
      = ["⚠️ Incomplete WORKSPACE for 01_a:", "   - missing 01_a.ipynb", ""] ∧
    "   - missing lyrics.md" ∉ incompleteBlock
        ⟨[["W"], ["W", "01_a"]],
          [(["W", "01_a", "data", "lyrics.md"], "x"),
            (["W", "01_a", "data", "metadata.json"], "m")]⟩ "01_a" ["W", "01_a"] :=
  ⟨by decide, by decide,
    C10_no_missing_lyrics_finding
      ⟨[["W"], ["W", "01_a"]],
        [(["W", "01_a", "data", "lyrics.md"], "x"),
          (["W", "01_a", "data", "metadata.json"], "m")]⟩
      ["W"] "01_a" ["W", "01_a"] (by decide)⟩

theorem charsLe_refl : ∀ as, charsLe as as = true := by
  intro as
  induction as with
  | nil => rfl
  | cons a l ih => simp [charsLe, ih]

theorem strLe_refl (s : String) : strLe s s :=
  charsLe_refl s.data

/-- C5: the Lyrics Sync Tool's tie-break.  On the claim's example it selects
`07_song.md`; in general, whenever some candidate's stem does not end in
`_web`, the tool returns a candidate whose stem does not end in `_web` and
which is lexicographically least among all such candidates. -/
theorem C5_sync_tiebreak :
    choose_import_md ["07_song.md", "07_song_web.md"] "07_song" = some "07_song.md" ∧
    ∀ (files : List String) (name d : String),
      d ∈ candidatesFor files name →
      strEndsWith (pathStem d) "_web" = false →
      ∃ c, choose_import_md files name = some c ∧
        strEndsWith (pathStem c) "_web" = false ∧
        c ∈ candidatesFor files name ∧
        ∀ e ∈ candidatesFor files name,
          strEndsWith (pathStem e) "_web" = false → strLe c e := by
  refine ⟨by decide, ?_⟩
  intro files name d hd hdw
  have hsorted : (candidatesFor files name).Sorted strLe := by
    unfold candidatesFor
    split
    · exact List.sorted_insertionSort strLe _
    · exact List.sorted_insertionSort strLe _
  have hd' : d ∈ (candidatesFor files name).filter
      (fun c => !(strEndsWith (pathStem c) "_web")) :=
    List.mem_filter.mpr ⟨hd, by rw [hdw]; rfl⟩
  have hnwsorted : ((candidatesFor files name).filter
      (fun c => !(strEndsWith (pathStem c) "_web"))).Sorted strLe :=
    List.Pairwise.filter _ hsorted
  unfold choose_import_md
  rw [if_neg (by
    intro hempty
    rw [List.isEmpty_iff] at hempty
    exact absurd (hempty ▸ hd) (List.not_mem_nil d))]
  cases hnw : (candidatesFor files name).filter
      (fun c => !(strEndsWith (pathStem c) "_web")) with
  | nil => exact absurd (hnw ▸ hd') (List.not_mem_nil d)
  | cons c tail =>
    refine ⟨c, rfl, ?_, ?_, ?_⟩
    · have hc : c ∈ (candidatesFor files name).filter
          (fun c => !(strEndsWith (pathStem c) "_web")) := by
        rw [hnw]
        exact List.mem_cons_self c tail
      have := (List.mem_filter.mp hc).2
      simpa using this
    · exact (List.mem_filter.mp (by rw [hnw]; exact List.mem_cons_self c tail)).1
    · intro e he hew
      have he' : e ∈ (candidatesFor files name).filter
          (fun c => !(strEndsWith (pathStem c) "_web")) :=
        List.mem_filter.mpr ⟨he, by rw [hew]; rfl⟩
      rw [hnw] at he'
      rcases List.mem_cons.mp he' with h1 | h1
      · rw [h1]
        exact strLe_refl c
      · rw [hnw] at hnwsorted
        exact (List.pairwise_cons.mp hnwsorted).1 e h1

/-- C5 witness: the general tie-break instantiated on the claim's concrete
candidate list. -/
theorem C5_sync_tiebreak_witness :
    "07_song.md" ∈ candidatesFor ["07_song.md", "07_song_web.md"] "07_song" ∧
    strEndsWith (pathStem "07_song.md") "_web" = false ∧
    ∃ c, choose_import_md ["07_song.md", "07_song_web.md"] "07_song" = some c ∧
      strEndsWith (pathStem c) "_web" = false ∧
      c ∈ candidatesFor ["07_song.md", "07_song_web.md"] "07_song" ∧
      ∀ e ∈ candidatesFor ["07_song.md", "07_song_web.md"] "07_song",
        strEndsWith (pathStem e) "_web" = false → strLe c e :=
  ⟨by decide, by decide, C5_sync_tiebreak.2 ["07_song.md", "07_song_web.md"] "07_song"
    "07_song.md" (by decide) (by decide)⟩

-- ## C6: dry-run versus real run

/-- C6 counterexample: the claim says dry-run "performs no write to the
filesystem".  With a workspace album and import directory present but the
pull-bucket album directory absent, a dry run still creates the pull-bucket
directory chain (`pb_album.mkdir` runs before the dry-run branch), so the
on-disk state changes. -/
theorem C6_dry_run_counterexample :
    sync_album ⟨"Singles", "HAWK-ARS-01", "01_Singles", ["01_singles"]⟩ [] true
        ⟨[["HAWK-ARS-01", "_workspace", "01_Singles"], ["_imports", "HAWK-ARS-00", "01_singles"]],
          []⟩
      = .ok ⟨[],
          ⟨[["HAWK-ARS-01", "_pull-bucket", "01_Singles"], ["HAWK-ARS-01", "_pull-bucket"],
            ["HAWK-ARS-01"], ["HAWK-ARS-01", "_workspace", "01_Singles"],
            ["_imports", "HAWK-ARS-00", "01_singles"]], []⟩⟩ ∧
    (FS.mk [["HAWK-ARS-01", "_pull-bucket", "01_Singles"], ["HAWK-ARS-01", "_pull-bucket"],
        ["HAWK-ARS-01"], ["HAWK-ARS-01", "_workspace", "01_Singles"],
        ["_imports", "HAWK-ARS-00", "01_singles"]] [])
      ≠ ⟨[["HAWK-ARS-01", "_workspace", "01_Singles"], ["_imports", "HAWK-ARS-00", "01_singles"]],
          []⟩ :=
  ⟨by decide, by decide⟩

theorem syncTracksLoop_dry_files (ad : AlbumDef) (base ws pb imp : FPath) :
    ∀ (names : List String) (fs : FS) (out : SyncOut),
      syncTracksLoop ad base ws pb imp true names fs = .ok out →
      out.fs.files = fs.files := by
  intro names
  induction names with
  | nil =>
    intro fs out h
    cases h
    rfl
  | cons name rest ih =>
    intro fs out h
    unfold syncTracksLoop at h
    split at h
    · split at h
      · split at h
        · exact Except.noConfusion h
        · rename_i out1 h1
          cases h
          exact ih fs out1 h1
      · split at h
        · split at h
          · exact Except.noConfusion h
          · rename_i out1 h1
            cases h
            exact ih fs out1 h1
        · rename_i fname hchoose
          split at h
          · exact Except.noConfusion h
          · rename_i lyr hread
            split at h
            · exact Except.noConfusion h
            · rename_i fs1 hmk
              rw [if_pos rfl] at h
              split at h
              · exact Except.noConfusion h
              · rename_i out1 h1
                cases h
                rw [ih fs1 out1 h1, mkdirp_files hmk]
    · exact ih fs out h

theorem lookup_append_none {extra l : List (FPath × String)} {q : FPath}
    (h : ∀ kv ∈ extra, kv.1 ≠ q) :
    lookupFile (extra ++ l) q = lookupFile l q := by
  induction extra with
  | nil => rfl
  | cons kv rest ih =>
    obtain ⟨p, c⟩ := kv
    show (if p = q then some c else lookupFile (rest ++ l) q) = lookupFile l q
    rw [if_neg (h (p, c) (List.mem_cons_self _ rest))]
    exact ih (fun kv' h' => h kv' (List.mem_cons_of_mem _ h'))

theorem shape_dropLast_ne_imp (base sub : FPath) (sku A : String) (p : FPath)
    (h : shapeOK (base ++ [sku, "_workspace", A]) (base ++ [sku, "_pull-bucket", A]) p) :
    p.dropLast ≠ base ++ ["_imports", "HAWK-ARS-00"] ++ sub := by
  rcases h with ⟨n, rfl⟩ | ⟨n, rfl⟩ | ⟨n, rfl⟩ <;>
    · intro he
      simp only [List.append_assoc, List.cons_append, List.nil_append] at he
      rw [List.dropLast_append_cons] at he
      simp only [List.dropLast] at he
      have h1 := List.append_cancel_left he
      injection h1 with h2 h3
      injection h3 with h4 h5
      exact absurd h4 (by decide)

theorem shape_ne_snoc_imp (base sub : FPath) (sku A : String) (p : FPath)
    (h : shapeOK (base ++ [sku, "_workspace", A]) (base ++ [sku, "_pull-bucket", A]) p)
    (m : String) :
    p ≠ (base ++ ["_imports", "HAWK-ARS-00"] ++ sub) ++ [m] := by
  intro he
  apply shape_dropLast_ne_imp base sub sku A p h
  rw [he, List.dropLast_concat]

theorem shape_ne_prefix_data (base : FPath) (sku A name : String) (p : FPath)
    (h : shapeOK (base ++ [sku, "_workspace", A]) (base ++ [sku, "_pull-bucket", A]) p)
    (q : FPath)
    (hq : q ∈ prefixesOf ((base ++ [sku, "_workspace", A]) ++ [name, "data"])) :
    p ≠ q := by
  intro he
  subst he
  have hpre : p <+: (base ++ [sku, "_workspace", A]) ++ [name, "data"] := by
    simp only [prefixesOf, List.mem_map, List.mem_range] at hq
    obtain ⟨i, -, rfl⟩ := hq
    exact List.take_prefix _ _
  rcases h with ⟨n, rfl⟩ | ⟨n, rfl⟩ | ⟨n, rfl⟩
  · have hlen := hpre.length_le
    simp only [List.length_append, List.length_cons, List.length_nil] at hlen
    omega
  · rw [show (base ++ [sku, "_workspace", A]) ++ [name, "data"]
        = base ++ ([sku, "_workspace", A] ++ [name, "data"]) from (List.append_assoc ..),
      List.append_assoc base] at hpre
    rw [List.prefix_append_right_inj] at hpre
    simp only [List.cons_append, List.nil_append, List.cons_prefix_cons] at hpre
    exact absurd hpre.2.1 (by decide)
  · rw [show (base ++ [sku, "_workspace", A]) ++ [name, "data"]
        = base ++ ([sku, "_workspace", A] ++ [name, "data"]) from (List.append_assoc ..),
      List.append_assoc base] at hpre
    rw [List.prefix_append_right_inj] at hpre
    simp only [List.cons_append, List.nil_append, List.cons_prefix_cons] at hpre
    exact absurd hpre.2.1 (by decide)

theorem childFileNames_extra {extra files : List (FPath × String)} {dD dR : List FPath}
    {imp : FPath} (h : ∀ kv ∈ extra, kv.1.dropLast ≠ imp) :
    childFileNames ⟨dR, extra ++ files⟩ imp = childFileNames ⟨dD, files⟩ imp := by
  unfold childFileNames
  congr 1
  congr 1
  rw [List.filterMap_append]
  rw [show (extra.filterMap fun kv =>
      match kv.1.getLast? with
      | some n => if kv.1.dropLast = imp then some n else none
      | none => none) = ([] : List String) from ?_]
  · rfl
  · rw [List.filterMap_eq_nil_iff]
    intro kv hkv
    cases hgl : kv.1.getLast? with
    | none => rfl
    | some n =>
      simp only [hgl]
      rw [if_neg (h kv hkv)]

theorem mkdirList_pair :
    ∀ (l : List FPath) (fsD fsR : FS),
      fsR.dirs = fsD.dirs →
      (∀ q ∈ l, fsR.read q = fsD.read q) →
      (∃ e, mkdirList fsD l = .error e ∧ mkdirList fsR l = .error e) ∨
      (∃ fsD' fsR', mkdirList fsD l = .ok fsD' ∧ mkdirList fsR l = .ok fsR' ∧
        fsR'.dirs = fsD'.dirs ∧ fsD'.files = fsD.files ∧ fsR'.files = fsR.files) := by
  intro l
  induction l with
  | nil =>
    intro fsD fsR hd _
    exact Or.inr ⟨fsD, fsR, rfl, rfl, hd, rfl, rfl⟩
  | cons q rest ih =>
    intro fsD fsR hd hr
    have hq := hr q (List.mem_cons_self q rest)
    have hdq : fsR.isDir q = fsD.isDir q := by
      unfold FS.isDir
      rw [hd]
    have hDunf : mkdirList fsD (q :: rest)
        = match mkdir1 fsD q with
          | .error e => Except.error e
          | .ok fs' => mkdirList fs' rest := rfl
    have hRunf : mkdirList fsR (q :: rest)
        = match mkdir1 fsR q with
          | .error e => Except.error e
          | .ok fs' => mkdirList fs' rest := rfl
    by_cases hsome : (fsD.read q).isSome = true
    · left
      have hd1 : mkdir1 fsD q = .error ("mkdir: file exists at " ++ joinPath q) := by
        unfold mkdir1
        rw [if_pos hsome]
      have hr1 : mkdir1 fsR q = .error ("mkdir: file exists at " ++ joinPath q) := by
        unfold mkdir1
        rw [if_pos (show (fsR.read q).isSome = true from by rw [hq]; exact hsome)]
      refine ⟨"mkdir: file exists at " ++ joinPath q, ?_, ?_⟩
      · rw [hDunf, hd1]
      · rw [hRunf, hr1]
    · by_cases hdir : fsD.isDir q = true
      · have hd1 : mkdir1 fsD q = .ok fsD := by
          unfold mkdir1
          rw [if_neg hsome, if_pos hdir]
        have hr1 : mkdir1 fsR q = .ok fsR := by
          unfold mkdir1
          rw [if_neg (show ¬(fsR.read q).isSome = true from by rw [hq]; exact hsome),
            if_pos (show fsR.isDir q = true from by rw [hdq]; exact hdir)]
        rw [hDunf, hd1, hRunf, hr1]
        exact ih fsD fsR hd (fun r hrr => hr r (List.mem_cons_of_mem q hrr))
      · have hd1 : mkdir1 fsD q = .ok ⟨q :: fsD.dirs, fsD.files⟩ := by
          unfold mkdir1
          rw [if_neg hsome, if_neg hdir]
        have hr1 : mkdir1 fsR q = .ok ⟨q :: fsR.dirs, fsR.files⟩ := by
          unfold mkdir1
          rw [if_neg (show ¬(fsR.read q).isSome = true from by rw [hq]; exact hsome),
            if_neg (show ¬ fsR.isDir q = true from by rw [hdq]; exact hdir)]
        rw [hDunf, hd1, hRunf, hr1]
        exact ih ⟨q :: fsD.dirs, fsD.files⟩ ⟨q :: fsR.dirs, fsR.files⟩ (by rw [hd])
          (fun r hrr => hr r (List.mem_cons_of_mem q hrr))

theorem map_decisions_cons {name : String} {d : SyncDecision} {xD xR : Except String SyncOut}
    (h : xD.map SyncOut.decisions = xR.map SyncOut.decisions) :
    (match xD with
      | .error e => (.error e : Except String SyncOut)
      | .ok out => .ok ⟨(name, d) :: out.decisions, out.fs⟩).map SyncOut.decisions
      = (match xR with
        | .error e => (.error e : Except String SyncOut)
        | .ok out => .ok ⟨(name, d) :: out.decisions, out.fs⟩).map SyncOut.decisions := by
  cases xD with
  | error e =>
    cases xR with
    | error e2 =>
      simp [Except.map] at h ⊢
      exact h
    | ok o => simp [Except.map] at h
  | ok o =>
    cases xR with
    | error e2 => simp [Except.map] at h
    | ok o2 =>
      simp [Except.map] at h ⊢
      exact h

theorem syncTracksLoop_modes (ad : AlbumDef) (base : FPath) :
    ∀ (names : List String) (fsD : FS) (extra : List (FPath × String)),
      (∀ kv ∈ extra, shapeOK (base ++ [ad.sku, "_workspace", ad.ws_album])
        (base ++ [ad.sku, "_pull-bucket", ad.ws_album]) kv.1) →
      (syncTracksLoop ad base (base ++ [ad.sku, "_workspace", ad.ws_album])
          (base ++ [ad.sku, "_pull-bucket", ad.ws_album])
          (base ++ ["_imports", "HAWK-ARS-00"] ++ ad.import_subdir) true names fsD).map
          SyncOut.decisions
        = (syncTracksLoop ad base (base ++ [ad.sku, "_workspace", ad.ws_album])
            (base ++ [ad.sku, "_pull-bucket", ad.ws_album])
            (base ++ ["_imports", "HAWK-ARS-00"] ++ ad.import_subdir) false names
            ⟨fsD.dirs, extra ++ fsD.files⟩).map SyncOut.decisions := by
  intro names
  induction names with
  | nil => intro fsD extra _; rfl
  | cons name rest ih =>
    intro fsD extra hshape
    have hreadeq : ∀ q : FPath, (∀ kv ∈ extra, kv.1 ≠ q) →
        FS.read ⟨fsD.dirs, extra ++ fsD.files⟩ q = fsD.read q := by
      intro q hq
      exact lookup_append_none hq
    conv_lhs => rw [syncTracksLoop]
    conv_rhs => rw [syncTracksLoop]
    rw [show FS.isDir ⟨fsD.dirs, extra ++ fsD.files⟩
        ((base ++ [ad.sku, "_workspace", ad.ws_album]) ++ [name])
        = fsD.isDir ((base ++ [ad.sku, "_workspace", ad.ws_album]) ++ [name]) from rfl]
    by_cases hdir : fsD.isDir ((base ++ [ad.sku, "_workspace", ad.ws_album]) ++ [name]) = true
    · simp only [if_pos hdir]
      by_cases hcp : strContains name "checkpoint" = true
      · simp only [if_pos hcp]
        exact map_decisions_cons (ih fsD extra hshape)
      · simp only [if_neg hcp]
        have hcfn : childFileNames ⟨fsD.dirs, extra ++ fsD.files⟩
            (base ++ ["_imports", "HAWK-ARS-00"] ++ ad.import_subdir)
            = childFileNames fsD
              (base ++ ["_imports", "HAWK-ARS-00"] ++ ad.import_subdir) :=
          childFileNames_extra (fun kv hkv =>
            shape_dropLast_ne_imp base ad.import_subdir ad.sku ad.ws_album kv.1 (hshape kv hkv))
        rw [hcfn]
        cases hch : choose_import_md
            (childFileNames fsD (base ++ ["_imports", "HAWK-ARS-00"] ++ ad.import_subdir))
            name with
        | none =>
          simp only [hch]
          exact map_decisions_cons (ih fsD extra hshape)
        | some fname =>
          simp only [hch]
          have hrr : readReq ⟨fsD.dirs, extra ++ fsD.files⟩
              ((base ++ ["_imports", "HAWK-ARS-00"] ++ ad.import_subdir) ++ [fname])
              = readReq fsD
                ((base ++ ["_imports", "HAWK-ARS-00"] ++ ad.import_subdir) ++ [fname]) := by
            unfold readReq
            rw [hreadeq _ (fun kv hkv he =>
              shape_dropLast_ne_imp base ad.import_subdir ad.sku ad.ws_album kv.1
                (hshape kv hkv) (by rw [he, List.dropLast_concat]))]
          rw [hrr]
          cases hread : readReq fsD
              ((base ++ ["_imports", "HAWK-ARS-00"] ++ ad.import_subdir) ++ [fname]) with
          | error e =>
            simp only [hread]
          | ok lyrics =>
            simp only [hread]
            have hprefixreads : ∀ q ∈ prefixesOf
                ((base ++ [ad.sku, "_workspace", ad.ws_album]) ++ [name, "data"]),
                FS.read ⟨fsD.dirs, extra ++ fsD.files⟩ q = fsD.read q := by
              intro q hq
              exact hreadeq q (fun kv hkv =>
                shape_ne_prefix_data base ad.sku ad.ws_album name kv.1 (hshape kv hkv) q hq)
            rcases mkdirList_pair
                (prefixesOf ((base ++ [ad.sku, "_workspace", ad.ws_album]) ++ [name, "data"]))
                fsD ⟨fsD.dirs, extra ++ fsD.files⟩ rfl hprefixreads with
              ⟨e, hDe, hRe⟩ | ⟨fsD1, fsR1, hD1, hR1, hdirs1, hfD1, hfR1⟩
            · rw [show mkdirp fsD
                  ((base ++ [ad.sku, "_workspace", ad.ws_album]) ++ [name, "data"])
                  = Except.error e from hDe,
                show mkdirp (⟨fsD.dirs, extra ++ fsD.files⟩ : FS)
                  ((base ++ [ad.sku, "_workspace", ad.ws_album]) ++ [name, "data"])
                  = Except.error e from hRe]
            · rw [show mkdirp fsD
                  ((base ++ [ad.sku, "_workspace", ad.ws_album]) ++ [name, "data"])
                  = Except.ok fsD1 from hD1,
                show mkdirp (⟨fsD.dirs, extra ++ fsD.files⟩ : FS)
                  ((base ++ [ad.sku, "_workspace", ad.ws_album]) ++ [name, "data"])
                  = Except.ok fsR1 from hR1]
              simp only [if_true, if_false]
              have hstep := ih fsD1
                (((base ++ [ad.sku, "_pull-bucket", ad.ws_album]) ++ [name ++ ".json"],
                    dumpsSyncMeta ad.sku ad.name ad.ws_album name
                      (joinPath ((((base ++ ["_imports", "HAWK-ARS-00"] ++ ad.import_subdir)
                        ++ [fname])).drop base.length))) ::
                  ((base ++ [ad.sku, "_pull-bucket", ad.ws_album]) ++ [name ++ ".md"], lyrics) ::
                  ((base ++ [ad.sku, "_workspace", ad.ws_album]) ++ [name, "data", "lyrics.md"],
                    lyrics) :: extra)
                (by
                  intro kv hkv
                  rcases List.mem_cons.mp hkv with h1 | h1
                  · right
                    right
                    exact ⟨name, by rw [h1]⟩
                  · rcases List.mem_cons.mp h1 with h2 | h2
                    · right
                      left
                      exact ⟨name, by rw [h2]⟩
                    · rcases List.mem_cons.mp h2 with h3 | h3
                      · left
                        refine ⟨name, by rw [h3]⟩
                      · exact hshape kv h3)
              refine map_decisions_cons ?_
              have hfr : fsR1.files = extra ++ fsD1.files := by
                rw [hfD1]
                exact hfR1
              have hwr : (((fsR1.setFile
                    ((base ++ [ad.sku, "_workspace", ad.ws_album])
                      ++ [name, "data", "lyrics.md"]) lyrics).setFile
                    ((base ++ [ad.sku, "_pull-bucket", ad.ws_album]) ++ [name ++ ".md"])
                    lyrics).setFile
                    ((base ++ [ad.sku, "_pull-bucket", ad.ws_album]) ++ [name ++ ".json"])
                    (dumpsSyncMeta ad.sku ad.name ad.ws_album name
                      (joinPath (((base ++ ["_imports", "HAWK-ARS-00"] ++ ad.import_subdir)
                        ++ [fname]).drop base.length))))
                  = (⟨fsD1.dirs,
                      (((base ++ [ad.sku, "_pull-bucket", ad.ws_album]) ++ [name ++ ".json"],
                      dumpsSyncMeta ad.sku ad.name ad.ws_album name
                        (joinPath (((base ++ ["_imports", "HAWK-ARS-00"] ++ ad.import_subdir)
                          ++ [fname]).drop base.length))) ::
                        ((base ++ [ad.sku, "_pull-bucket", ad.ws_album]) ++ [name ++ ".md"], lyrics) ::
                        ((base ++ [ad.sku, "_workspace", ad.ws_album]) ++ [name, "data", "lyrics.md"], lyrics) :: extra)
                        ++ fsD1.files⟩ : FS) := by
                calc (((fsR1.setFile
                    ((base ++ [ad.sku, "_workspace", ad.ws_album])
                      ++ [name, "data", "lyrics.md"]) lyrics).setFile
                    ((base ++ [ad.sku, "_pull-bucket", ad.ws_album]) ++ [name ++ ".md"])
                    lyrics).setFile
                    ((base ++ [ad.sku, "_pull-bucket", ad.ws_album]) ++ [name ++ ".json"])
                    (dumpsSyncMeta ad.sku ad.name ad.ws_album name
                      (joinPath (((base ++ ["_imports", "HAWK-ARS-00"] ++ ad.import_subdir)
                        ++ [fname]).drop base.length))))
                    = ⟨((((fsR1.setFile
                    ((base ++ [ad.sku, "_workspace", ad.ws_album])
                      ++ [name, "data", "lyrics.md"]) lyrics).setFile
                    ((base ++ [ad.sku, "_pull-bucket", ad.ws_album]) ++ [name ++ ".md"])
                    lyrics).setFile
                    ((base ++ [ad.sku, "_pull-bucket", ad.ws_album]) ++ [name ++ ".json"])
                    (dumpsSyncMeta ad.sku ad.name ad.ws_album name
                      (joinPath (((base ++ ["_imports", "HAWK-ARS-00"] ++ ad.import_subdir)
                        ++ [fname]).drop base.length))))).dirs,
                       ((((fsR1.setFile
                    ((base ++ [ad.sku, "_workspace", ad.ws_album])
                      ++ [name, "data", "lyrics.md"]) lyrics).setFile
                    ((base ++ [ad.sku, "_pull-bucket", ad.ws_album]) ++ [name ++ ".md"])
                    lyrics).setFile
                    ((base ++ [ad.sku, "_pull-bucket", ad.ws_album]) ++ [name ++ ".json"])
                    (dumpsSyncMeta ad.sku ad.name ad.ws_album name
                      (joinPath (((base ++ ["_imports", "HAWK-ARS-00"] ++ ad.import_subdir)
                        ++ [fname]).drop base.length))))).files⟩ := rfl
                  _ = ⟨fsD1.dirs,
                      (((base ++ [ad.sku, "_pull-bucket", ad.ws_album]) ++ [name ++ ".json"],
                      dumpsSyncMeta ad.sku ad.name ad.ws_album name
                        (joinPath (((base ++ ["_imports", "HAWK-ARS-00"] ++ ad.import_subdir)
                          ++ [fname]).drop base.length))) ::
                        ((base ++ [ad.sku, "_pull-bucket", ad.ws_album]) ++ [name ++ ".md"], lyrics) ::
                        ((base ++ [ad.sku, "_workspace", ad.ws_album]) ++ [name, "data", "lyrics.md"], lyrics) :: extra)
                        ++ fsD1.files⟩ := by
                      rw [show ((((fsR1.setFile
                    ((base ++ [ad.sku, "_workspace", ad.ws_album])
                      ++ [name, "data", "lyrics.md"]) lyrics).setFile
                    ((base ++ [ad.sku, "_pull-bucket", ad.ws_album]) ++ [name ++ ".md"])
                    lyrics).setFile
                    ((base ++ [ad.sku, "_pull-bucket", ad.ws_album]) ++ [name ++ ".json"])
                    (dumpsSyncMeta ad.sku ad.name ad.ws_album name
                      (joinPath (((base ++ ["_imports", "HAWK-ARS-00"] ++ ad.import_subdir)
                        ++ [fname]).drop base.length))))).dirs = fsD1.dirs from hdirs1,
                        show ((((fsR1.setFile
                    ((base ++ [ad.sku, "_workspace", ad.ws_album])
                      ++ [name, "data", "lyrics.md"]) lyrics).setFile
                    ((base ++ [ad.sku, "_pull-bucket", ad.ws_album]) ++ [name ++ ".md"])
                    lyrics).setFile
                    ((base ++ [ad.sku, "_pull-bucket", ad.ws_album]) ++ [name ++ ".json"])
                    (dumpsSyncMeta ad.sku ad.name ad.ws_album name
                      (joinPath (((base ++ ["_imports", "HAWK-ARS-00"] ++ ad.import_subdir)
                        ++ [fname]).drop base.length))))).files
                            = (((base ++ [ad.sku, "_pull-bucket", ad.ws_album]) ++ [name ++ ".json"],
                      dumpsSyncMeta ad.sku ad.name ad.ws_album name
                        (joinPath (((base ++ ["_imports", "HAWK-ARS-00"] ++ ad.import_subdir)
                          ++ [fname]).drop base.length))) ::
                              ((base ++ [ad.sku, "_pull-bucket", ad.ws_album]) ++ [name ++ ".md"], lyrics) ::
                              ((base ++ [ad.sku, "_workspace", ad.ws_album]) ++ [name, "data", "lyrics.md"], lyrics) :: extra)
                              ++ fsD1.files from by
                          show (((base ++ [ad.sku, "_pull-bucket", ad.ws_album]) ++ [name ++ ".json"],
                      dumpsSyncMeta ad.sku ad.name ad.ws_album name
                        (joinPath (((base ++ ["_imports", "HAWK-ARS-00"] ++ ad.import_subdir)
                          ++ [fname]).drop base.length))) ::
                              ((base ++ [ad.sku, "_pull-bucket", ad.ws_album]) ++ [name ++ ".md"], lyrics) ::
                              ((base ++ [ad.sku, "_workspace", ad.ws_album]) ++ [name, "data", "lyrics.md"], lyrics) :: fsR1.files)
                              = _
                          rw [hfr]
                          rfl]
              rw [hwr]
              exact hstep
    · simp only [if_neg hdir]
      exact ih fsD extra hshape

/-- C6 (amended): for any fixed on-disk state the dry run computes exactly
the same per-track decisions (skip / miss / resolved import file, in order)
as a real run — including agreeing on any error — and a dry run never writes
or modifies any FILE; however, it may still create directories (the
pull-bucket album directory and each matched track's `data` directory are
created before the dry-run branch). -/
theorem C6_dry_run_equivalence_amended (ad : AlbumDef) (base : FPath) (fs : FS) :
    (sync_album ad base true fs).map SyncOut.decisions
      = (sync_album ad base false fs).map SyncOut.decisions ∧
    ∀ out, sync_album ad base true fs = .ok out → out.fs.files = fs.files := by
  constructor
  · unfold sync_album
    by_cases h1 : (!(fs.pexists (base ++ [ad.sku, "_workspace", ad.ws_album]))) = true
    · simp only [if_pos h1]
    · simp only [if_neg h1]
      by_cases h2 :
          (!(fs.pexists (base ++ ["_imports", "HAWK-ARS-00"] ++ ad.import_subdir))) = true
      · simp only [if_pos h2]
      · simp only [if_neg h2]
        cases hmk : mkdirp fs (base ++ [ad.sku, "_pull-bucket", ad.ws_album]) with
        | error e => simp only [hmk]
        | ok fs1 =>
          simp only [hmk]
          exact syncTracksLoop_modes ad base
            (childNamesAll fs1 (base ++ [ad.sku, "_workspace", ad.ws_album])) fs1 []
            (fun kv hkv => absurd hkv (List.not_mem_nil kv))
  · intro out h
    unfold sync_album at h
    split at h
    · cases h
      rfl
    · split at h
      · cases h
        rfl
      · split at h
        · exact Except.noConfusion h
        · rename_i fs1 hmk
          rw [syncTracksLoop_dry_files ad base _ _ _ _ fs1 out h, mkdirp_files hmk]

/-- C6 witness: a concrete state with one workspace track and one matching
source file: dry and real runs produce the identical decision list, and the
dry run leaves the file table untouched. -/
theorem C6_dry_run_equivalence_amended_witness :
    (sync_album ⟨"Singles", "HAWK-ARS-01", "01_Singles", ["01_singles"]⟩ [] true
        ⟨[["HAWK-ARS-01", "_workspace", "01_Singles"],
          ["HAWK-ARS-01", "_workspace", "01_Singles", "07_song"],
          ["_imports", "HAWK-ARS-00", "01_singles"]],
          [(["_imports", "HAWK-ARS-00", "01_singles", "07_song.md"], "LL")]⟩).map
        SyncOut.decisions
      = (sync_album ⟨"Singles", "HAWK-ARS-01", "01_Singles", ["01_singles"]⟩ [] false
          ⟨[["HAWK-ARS-01", "_workspace", "01_Singles"],
            ["HAWK-ARS-01", "_workspace", "01_Singles", "07_song"],
            ["_imports", "HAWK-ARS-00", "01_singles"]],
            [(["_imports", "HAWK-ARS-00", "01_singles", "07_song.md"], "LL")]⟩).map
          SyncOut.decisions ∧
    (sync_album ⟨"Singles", "HAWK-ARS-01", "01_Singles", ["01_singles"]⟩ [] true
        ⟨[["HAWK-ARS-01", "_workspace", "01_Singles"],
          ["HAWK-ARS-01", "_workspace", "01_Singles", "07_song"],
          ["_imports", "HAWK-ARS-00", "01_singles"]],
          [(["_imports", "HAWK-ARS-00", "01_singles", "07_song.md"], "LL")]⟩).map
        SyncOut.decisions
      = .ok [("07_song", .sync ["_imports", "HAWK-ARS-00", "01_singles", "07_song.md"])] ∧
    sync_album ⟨"Singles", "HAWK-ARS-01", "01_Singles", ["01_singles"]⟩ [] true
        ⟨[["HAWK-ARS-01", "_workspace", "01_Singles"],
          ["HAWK-ARS-01", "_workspace", "01_Singles", "07_song"],
          ["_imports", "HAWK-ARS-00", "01_singles"]],
          [(["_imports", "HAWK-ARS-00", "01_singles", "07_song.md"], "LL")]⟩
      = .ok ⟨[("07_song", .sync ["_imports", "HAWK-ARS-00", "01_singles", "07_song.md"])],
          ⟨[["HAWK-ARS-01", "_workspace", "01_Singles", "07_song", "data"],
            ["HAWK-ARS-01", "_workspace"],
            ["HAWK-ARS-01", "_pull-bucket", "01_Singles"],
            ["HAWK-ARS-01", "_pull-bucket"],
            ["HAWK-ARS-01"],
            ["HAWK-ARS-01", "_workspace", "01_Singles"],
            ["HAWK-ARS-01", "_workspace", "01_Singles", "07_song"],
            ["_imports", "HAWK-ARS-00", "01_singles"]],
            [(["_imports", "HAWK-ARS-00", "01_singles", "07_song.md"], "LL")]⟩⟩ ∧
    (SyncOut.mk [("07_song", .sync ["_imports", "HAWK-ARS-00", "01_singles", "07_song.md"])]
        ⟨[["HAWK-ARS-01", "_workspace", "01_Singles", "07_song", "data"],
          ["HAWK-ARS-01", "_workspace"],
          ["HAWK-ARS-01", "_pull-bucket", "01_Singles"],
          ["HAWK-ARS-01", "_pull-bucket"],
          ["HAWK-ARS-01"],
          ["HAWK-ARS-01", "_workspace", "01_Singles"],
          ["HAWK-ARS-01", "_workspace", "01_Singles", "07_song"],
          ["_imports", "HAWK-ARS-00", "01_singles"]],
          [(["_imports", "HAWK-ARS-00", "01_singles", "07_song.md"], "LL")]⟩).fs.files
      = [(["_imports", "HAWK-ARS-00", "01_singles", "07_song.md"], "LL")] :=
  ⟨(C6_dry_run_equivalence_amended ⟨"Singles", "HAWK-ARS-01", "01_Singles", ["01_singles"]⟩ []
      ⟨[["HAWK-ARS-01", "_workspace", "01_Singles"],
        ["HAWK-ARS-01", "_workspace", "01_Singles", "07_song"],
        ["_imports", "HAWK-ARS-00", "01_singles"]],
        [(["_imports", "HAWK-ARS-00", "01_singles", "07_song.md"], "LL")]⟩).1,
    by decide, by decide,
    (C6_dry_run_equivalence_amended ⟨"Singles", "HAWK-ARS-01", "01_Singles", ["01_singles"]⟩ []
        ⟨[["HAWK-ARS-01", "_workspace", "01_Singles"],
          ["HAWK-ARS-01", "_workspace", "01_Singles", "07_song"],
          ["_imports", "HAWK-ARS-00", "01_singles"]],
          [(["_imports", "HAWK-ARS-00", "01_singles", "07_song.md"], "LL")]⟩).2
      ⟨[("07_song", .sync ["_imports", "HAWK-ARS-00", "01_singles", "07_song.md"])],
        ⟨[["HAWK-ARS-01", "_workspace", "01_Singles", "07_song", "data"],
          ["HAWK-ARS-01", "_workspace"],
          ["HAWK-ARS-01", "_pull-bucket", "01_Singles"],
          ["HAWK-ARS-01", "_pull-bucket"],
          ["HAWK-ARS-01"],
          ["HAWK-ARS-01", "_workspace", "01_Singles"],
          ["HAWK-ARS-01", "_workspace", "01_Singles", "07_song"],
          ["_imports", "HAWK-ARS-00", "01_singles"]],
          [(["_imports", "HAWK-ARS-00", "01_singles", "07_song.md"], "LL")]⟩⟩ (by decide)⟩
